import Mathlib

/-!
Verification of the café order-management core (lifecycle state machine,
station routing, command log, snapshot store) against its specification.

The Python source is shallowly embedded: Django model rows become records in
an explicit in-memory world, object mutation plus save() becomes functional
update of that world, datetime.now() becomes a logical clock that ticks on
every read, and raised exceptions become Except / Option Err results.  Money
(Decimal) is modelled as an integer count of cents, which is exact because
the embedded code only adds prices and multiplies them by integer
quantities.  Each definition mirrors one Python
function; doc comments name the source location it embeds.
-/

namespace Cafeteria

/-- Error taxonomy of the specification (section 7).  The Python code raises
ValueError / DoesNotExist with distinguishing messages; the embedding maps
each raise site to the corresponding spec error kind. -/
inductive Err where
  | invalidTransition
  | preconditionFailed
  | notEditable
  | notFound
  | corruptSnapshot
  | cannotUndo
  deriving DecidableEq, Repr

/-- apps/menu/models.py Product: the fields read by the order/kitchen core
(name, category type via the category foreign key, base price, preparation
time, available extras mapping). -/
structure Product where
  id : Nat
  name : String
  categoryType : String
  basePrice : Int
  preparationTime : Nat
  availableExtras : List (String × Int)
  deriving DecidableEq, Repr

/-- Extras selections are modelled as an association list of boolean flags.
The Python extras dict may also carry string and list values (size, ice,
sweetener, toppings); those decorators either do not change the price or are
outside the modelled domain, so the embedding restricts extras to the
flag-triggered decorators, which is the shape the order flow uses. -/
abbrev Extras := List (String × Bool)

/-- Truthiness lookup in an extras dict: Python tests
(key in extras_dict and extras_dict[key]). -/
def extrasFlag (e : Extras) (key : String) : Bool :=
  match e.find? (fun p => p.1 == key) with
  | some (_, b) => b
  | none => false

/-- apps/menu/models.py Product.get_extras_price: sums the price of every
selected extra that appears in available_extras. -/
def Product.get_extras_price (p : Product) (extras : Extras) : Int :=
  (extras.filter
      (fun pr => pr.2 && (p.availableExtras.any (fun a => a.1 == pr.1)))).foldl
    (fun acc pr =>
      acc + (match p.availableExtras.find? (fun a => a.1 == pr.1) with
             | some (_, v) => v
             | none => 0))
    0

/-- apps/menu/decorators/product_decorator.py DecoratorFactory.apply_extras
followed by get_price, on flag extras: each flag-triggered decorator adds its
default surcharge in cents to the wrapped price (leche regular 50, extra_shot
with the default single shot 100, queso 50, aguacate 100, proteina_extra
pollo 200).  The size / ice / sweetener decorators keyed by non-flag values are
price-neutral at their defaults and outside the flag domain. -/
def decoratedPrice (p : Product) (extras : Extras) : Int :=
  p.basePrice
    + (if extrasFlag extras "leche" then (50 : Int) else 0)
    + (if extrasFlag extras "extra_shot" then (100 : Int) else 0)
    + (if extrasFlag extras "queso" then (50 : Int) else 0)
    + (if extrasFlag extras "aguacate" then (100 : Int) else 0)
    + (if extrasFlag extras "proteina_extra" then (200 : Int) else 0)

/-- apps/orders/models.py OrderItem: one line of an order. -/
structure OrderItem where
  id : Nat
  orderId : Nat
  productId : Nat
  quantity : Nat
  unitPrice : Int
  extras : Extras
  extrasPrice : Int
  subtotal : Int
  deriving DecidableEq, Repr

/-- apps/orders/models.py Order: the fields the core reads and writes.
Timestamps are logical clock values.  The customer reference is kept as a
plain identifier; the customer-name / waiter fields are not read by any
verified operation. -/
structure Order where
  id : Nat
  customerId : Nat
  tableNumber : Int
  status : String
  totalPrice : Int
  specialInstructions : String
  preparedAt : Option Nat
  deliveredAt : Option Nat
  deriving DecidableEq, Repr

/-- apps/kitchen/models.py KitchenStation. -/
structure KitchenStation where
  id : Nat
  name : String
  stationType : String
  isActive : Bool
  deriving DecidableEq, Repr

/-- apps/kitchen/models.py StationQueue: one queue entry linking a station to
an order. -/
structure StationQueue where
  id : Nat
  stationId : Nat
  orderId : Nat
  assignedAt : Nat
  completedAt : Option Nat
  isCompleted : Bool
  deriving DecidableEq, Repr

/-- apps/orders/patterns/memento.py: one entry of the items snapshot captured
by OrderOriginator.create_memento. -/
structure ItemSnap where
  productId : Nat
  productName : String
  quantity : Nat
  unitPrice : Int
  extras : Extras
  extrasPrice : Int
  subtotal : Int
  deriving DecidableEq, Repr

/-- The metadata keys of a memento that the verified operations read
(create_memento also records customer / waiter / creation data, which no
modelled operation consumes). -/
structure SnapMeta where
  tag : String
  reason : String
  tableNumber : Int
  specialInstructions : String
  deriving DecidableEq, Repr

/-- apps/orders/patterns/memento.py OrderMemento.  The checksum of the Python
code is hash(f-string of order id, status, total price and item count); the
embedding keeps that string itself, which preserves exactly which fields the
checksum depends on. -/
structure OrderMemento where
  orderId : Nat
  status : String
  totalPrice : Int
  itemsSnapshot : List ItemSnap
  metadata : SnapMeta
  timestamp : Nat
  checksum : String
  deriving DecidableEq, Repr

/-- OrderMemento._calculate_checksum: the data the checksum is built from. -/
def checksumData (orderId : Nat) (status : String) (totalPrice : Int)
    (itemCount : Nat) : String :=
  toString orderId ++ status ++ toString totalPrice ++ toString itemCount

/-- OrderMemento.__init__: stores the fields and computes the checksum. -/
def mkMemento (orderId : Nat) (status : String) (totalPrice : Int)
    (itemsSnapshot : List ItemSnap) (metadata : SnapMeta)
    (timestamp : Nat) : OrderMemento :=
  { orderId := orderId
    status := status
    totalPrice := totalPrice
    itemsSnapshot := itemsSnapshot
    metadata := metadata
    timestamp := timestamp
    checksum := checksumData orderId status totalPrice itemsSnapshot.length }

/-- OrderMemento.is_valid: recompute the checksum and compare. -/
def OrderMemento.is_valid (m : OrderMemento) : Bool :=
  m.checksum == checksumData m.orderId m.status m.totalPrice m.itemsSnapshot.length

/-- apps/orders/models.py OrderHistory: audit rows written by Command.log. -/
structure HistoryRec where
  orderId : Nat
  action : String
  previousStatus : String
  newStatus : String
  reason : String
  deriving DecidableEq, Repr

/-- The durable store plus the in-memory singletons (snapshot caretaker,
notification log) and a logical clock.  Fresh primary keys come from the
next-id counters. -/
structure World where
  orders : List Order
  items : List OrderItem
  products : List Product
  stations : List KitchenStation
  queue : List StationQueue
  snapshots : List (Nat × List (String × OrderMemento))
  notifications : List (String × Nat)
  history : List HistoryRec
  clock : Nat
  nextItemId : Nat
  nextOrderId : Nat
  deriving DecidableEq, Repr

namespace World

/-- datetime.now(): read the clock and advance it. -/
def now (w : World) : Nat × World :=
  (w.clock, { w with clock := w.clock + 1 })

/-- Order.objects.get(id=oid), as an optional lookup. -/
def findOrder (w : World) (oid : Nat) : Option Order :=
  w.orders.find? (fun o => o.id == oid)

/-- Product.objects.get(id=pid), as an optional lookup. -/
def findProduct (w : World) (pid : Nat) : Option Product :=
  w.products.find? (fun p => p.id == pid)

/-- order.save(): write the instance back to its row. -/
def saveOrder (w : World) (o : Order) : World :=
  { w with orders := w.orders.map (fun x => if x.id = o.id then o else x) }

/-- order.items.all(). -/
def orderItems (w : World) (oid : Nat) : List OrderItem :=
  w.items.filter (fun it => it.orderId == oid)

/-- item.save(): write the item instance back to its row. -/
def saveItem (w : World) (it : OrderItem) : World :=
  { w with items := w.items.map (fun x => if x.id = it.id then it else x) }

/-- item.delete(). -/
def deleteItem (w : World) (iid : Nat) : World :=
  { w with items := w.items.filter (fun x => x.id != iid) }

/-- OrderHistory.objects.create(...). -/
def logHistory (w : World) (r : HistoryRec) : World :=
  { w with history := w.history ++ [r] }

end World

/-- apps/orders/models.py OrderItem.save: default the unit price to the base
price when falsy (zero), recompute the extras price from the product and the
subtotal as (unit price + extras price) * quantity. -/
def itemOnSave (p : Product) (it : OrderItem) : OrderItem :=
  let unit := if it.unitPrice = 0 then p.basePrice else it.unitPrice
  let extrasPrice := p.get_extras_price it.extras
  { it with
      unitPrice := unit
      extrasPrice := extrasPrice
      subtotal := (unit + extrasPrice) * it.quantity }

/-- OrderItem.objects.create(...): allocate a fresh id and run the save
computation. -/
def createItem (w : World) (oid : Nat) (p : Product) (quantity : Nat)
    (unitPrice : Int) (extras : Extras) : OrderItem × World :=
  let it := itemOnSave p
    { id := w.nextItemId, orderId := oid, productId := p.id,
      quantity := quantity, unitPrice := unitPrice, extras := extras,
      extrasPrice := 0, subtotal := 0 }
  (it, { w with items := w.items ++ [it], nextItemId := w.nextItemId + 1 })

/-- OrderItem.calculate_subtotal: recompute extras price and subtotal from
the product and save the row.  Fails only if the product row is missing
(foreign-key integrity makes that unreachable). -/
def calculateSubtotal (w : World) (iid : Nat) : Except Err World :=
  match w.items.find? (fun it => it.id == iid) with
  | none => .error .notFound
  | some it =>
    match w.findProduct it.productId with
    | none => .error .notFound
    | some p =>
      let extrasPrice := p.get_extras_price it.extras
      .ok (w.saveItem { it with
        extrasPrice := extrasPrice
        subtotal := (it.unitPrice + extrasPrice) * it.quantity })

/-- Sum of the subtotals of the lines of one order. -/
def sumSubtotals (w : World) (oid : Nat) : Int :=
  ((w.orderItems oid).map (fun it => it.subtotal)).sum

/-- apps/orders/models.py Order.calculate_total: set total_price to the sum
of the line subtotals and save. -/
def calculateTotal (w : World) (oid : Nat) : World :=
  match w.findOrder oid with
  | none => w
  | some o => w.saveOrder { o with totalPrice := sumSubtotals w oid }

/-- apps/orders/models.py Order.can_cancel. -/
def Order.can_cancel (o : Order) : Bool :=
  o.status == "PENDIENTE" || o.status == "EN_PREPARACION"

/-! ### Notification fan-out

apps/notifications/services.py NotificationService.  The observer layer is
modelled as an append-only event log of (event kind, order id).  The state
machine calls NotificationService.notify_kitchen and notify_waiter, which do
not exist anywhere in the repository (the service defines notify_new_order,
notify_order_ready and friends); the repository test suite also calls
notify_kitchen, so the missing methods are a slip rather than a design choice
and are modelled from the specification. -/

/-- Modelled from the spec: NotificationService.notify_kitchen, called by
InPreparationState.handle but not defined in apps/notifications/services.py.
The specification table (section 4.1) requires a NEW_ORDER fan-out to the
kitchen on entering IN_PREPARATION. -/
def notifyKitchen (w : World) (oid : Nat) : World :=
  { w with notifications := w.notifications ++ [("NEW_ORDER", oid)] }

/-- Modelled from the spec: NotificationService.notify_waiter, called by
ReadyState.handle but not defined in apps/notifications/services.py.  The
specification table (section 4.1) requires an ORDER_READY fan-out to the
assigned server and customer on entering READY. -/
def notifyWaiter (w : World) (oid : Nat) : World :=
  { w with notifications := w.notifications ++ [("ORDER_READY", oid)] }

/-! ### Snapshot store (Memento pattern) -/

/-- apps/orders/patterns/memento.py OrderOriginator.create_memento: capture
the items of the order, the metadata and the order scalars into a checksummed
memento timestamped now. -/
def createMemento (w : World) (o : Order) (tag reason : String) :
    OrderMemento × World :=
  let snaps := (w.orderItems o.id).map (fun it =>
    { productId := it.productId
      productName :=
        (match w.findProduct it.productId with
         | some p => p.name
         | none => "")
      quantity := it.quantity
      unitPrice := it.unitPrice
      extras := it.extras
      extrasPrice := it.extrasPrice
      subtotal := it.subtotal : ItemSnap })
  let (t, w') := w.now
  (mkMemento o.id o.status o.totalPrice snaps
    { tag := tag, reason := reason, tableNumber := o.tableNumber,
      specialInstructions := o.specialInstructions } t, w')

/-- OrderCaretaker.max_snapshots_per_order default used by the
get_caretaker singleton. -/
def maxSnapshotsPerOrder : Nat := 10

/-- Snapshot list of one order inside the caretaker dictionary. -/
def World.snapsOf (w : World) (oid : Nat) : List (String × OrderMemento) :=
  match w.snapshots.find? (fun p => p.1 == oid) with
  | some (_, l) => l
  | none => []

/-- Replace the snapshot list of one order in the caretaker dictionary. -/
def World.setSnaps (w : World) (oid : Nat)
    (l : List (String × OrderMemento)) : World :=
  if w.snapshots.any (fun p => p.1 == oid) then
    { w with snapshots :=
        w.snapshots.map (fun p => if p.1 = oid then (oid, l) else p) }
  else
    { w with snapshots := w.snapshots ++ [(oid, l)] }

/-- apps/orders/patterns/memento.py OrderCaretaker.save: create a memento,
append it under its tag (or a generated snapshot_N tag), and evict the oldest
entry past the per-order cap. -/
def caretakerSave (w : World) (o : Order) (tag reason : String) : World :=
  let (m, w1) := createMemento w o tag reason
  let l := w1.snapsOf o.id
  let usedTag := if tag = "" then "snapshot_" ++ toString l.length else tag
  let l1 := l ++ [(usedTag, m)]
  let l2 := if l1.length > maxSnapshotsPerOrder then l1.drop 1 else l1
  w1.setSnaps o.id l2

/-- apps/orders/patterns/memento.py OrderOriginator.restore_from_memento:
reject a memento whose checksum does not validate, otherwise copy status,
total price, table number and special instructions onto the order and save.
Line items are not touched. -/
def restoreFromMemento (w : World) (o : Order) (m : OrderMemento) :
    Except Err World :=
  if !m.is_valid then .error .corruptSnapshot
  else
    .ok (w.saveOrder { o with
      status := m.status
      totalPrice := m.totalPrice
      tableNumber := m.metadata.tableNumber
      specialInstructions := m.metadata.specialInstructions })

/-- apps/orders/patterns/memento.py OrderCaretaker.restore: look up the first
memento saved under the tag for this order; return none (leaving the world
unchanged) when the order has no snapshots or the tag is absent. -/
def caretakerRestore (w : World) (o : Order) (tag : String) :
    Except Err (Option OrderMemento × World) :=
  match w.snapshots.find? (fun p => p.1 == o.id) with
  | none => .ok (none, w)
  | some (_, l) =>
    match l.find? (fun p => p.1 == tag) with
    | none => .ok (none, w)
    | some (_, m) =>
      match restoreFromMemento w o m with
      | .error e => .error e
      | .ok w' => .ok (some m, w')

/-! ### Lifecycle state machine (State pattern)

apps/orders/patterns/state.py.  Each concrete OrderState class becomes a
constructor of OrderSt; handle, next_state, can_cancel, can_edit and
validate_transition become functions over it. -/

inductive OrderSt where
  | pending
  | inPreparation
  | ready
  | delivered
  | cancelled
  deriving DecidableEq, Repr

/-- OrderStateManager.STATES lookup with PendingState as the dictionary
default. -/
def getState (status : String) : OrderSt :=
  if status = "PENDIENTE" then .pending
  else if status = "EN_PREPARACION" then .inPreparation
  else if status = "LISTO" then .ready
  else if status = "ENTREGADO" then .delivered
  else if status = "CANCELADO" then .cancelled
  else .pending

/-- next_state of each concrete state. -/
def nextState : OrderSt → Option OrderSt
  | .pending => some .inPreparation
  | .inPreparation => some .ready
  | .ready => some .delivered
  | .delivered => none
  | .cancelled => none

/-- can_cancel of each concrete state. -/
def stCanCancel : OrderSt → Bool
  | .pending => true
  | .inPreparation => true
  | _ => false

/-- can_edit of each concrete state. -/
def stCanEdit : OrderSt → Bool
  | .pending => true
  | _ => false

/-- validate_transition: the base class accepts every transition; only
InPreparationState overrides it, requiring the order to have items before
advancing out of EN_PREPARACION. -/
def validateTransition (s : OrderSt) (w : World) (o : Order) :
    Except Err Unit :=
  match s with
  | .inPreparation =>
    if (w.orderItems o.id).length = 0 then .error .preconditionFailed
    else .ok ()
  | _ => .ok ()

/-- handle of each concrete state: write the status (and timestamp where the
state sets one), save, fan out the notification the state emits, and capture
the automatic snapshot. -/
def handleState (s : OrderSt) (w : World) (o : Order) : World :=
  match s with
  | .pending =>
    let o' := { o with status := "PENDIENTE" }
    let w1 := w.saveOrder o'
    caretakerSave w1 o' "pending" "Orden creada"
  | .inPreparation =>
    let o' := { o with status := "EN_PREPARACION" }
    let w1 := w.saveOrder o'
    let w2 := notifyKitchen w1 o'.id
    caretakerSave w2 o' "in_preparation" "Enviada a cocina"
  | .ready =>
    let (t, w1) := w.now
    let o' := { o with status := "LISTO", preparedAt := some t }
    let w2 := w1.saveOrder o'
    let w3 := notifyWaiter w2 o'.id
    caretakerSave w3 o' "ready" "Orden lista para servir"
  | .delivered =>
    let (t, w1) := w.now
    let o' := { o with status := "ENTREGADO", deliveredAt := some t }
    let w2 := w1.saveOrder o'
    caretakerSave w2 o' "delivered" "Orden entregada al cliente"
  | .cancelled =>
    let o' := { o with status := "CANCELADO" }
    let w1 := w.saveOrder o'
    caretakerSave w1 o' "cancelled" "Orden cancelada"

/-- apps/orders/patterns/state.py OrderStateManager.advance_order: compute
the next state of the current one, fail on a final state, run the current
state validation, then apply the next state side effects.  A failed
validation raises before any mutation. -/
def advanceOrder (w : World) (oid : Nat) : Except Err (OrderSt × World) :=
  match w.findOrder oid with
  | none => .error .notFound
  | some o =>
    let current := getState o.status
    match nextState current with
    | none => .error .invalidTransition
    | some nxt =>
      match validateTransition current w o with
      | .error e => .error e
      | .ok _ => .ok (nxt, handleState nxt w o)

/-- apps/orders/patterns/state.py OrderStateManager.cancel_order: fail when
the current state forbids cancelling, otherwise apply the CancelledState
side effects. -/
def cancelOrder (w : World) (oid : Nat) (_reason : String) :
    Except Err World :=
  match w.findOrder oid with
  | none => .error .notFound
  | some o =>
    if !stCanCancel (getState o.status) then .error .invalidTransition
    else .ok (handleState .cancelled w o)

/-! ### Kitchen router (Chain of Responsibility)

apps/kitchen/handlers.py.  The handler classes become constructors of
HandlerKind; the set_next linked chain built by KitchenRouter._build_chain
becomes an explicit list walked by chainHandle, mirroring
StationHandler.handle (first handler whose can_handle accepts the item
processes it, otherwise the item is passed along; the chain ends after
DefaultHandler). -/

/-- Contiguous containment of one character sequence in another. -/
def charsContain (needle : List Char) : List Char → Bool
  | [] => needle.isEmpty
  | c :: rest => needle.isPrefixOf (c :: rest) || charsContain needle rest

/-- Python substring membership (needle in haystack), as contiguous
character-infix of the character sequences. -/
def pyIn (needle hay : String) : Bool :=
  charsContain needle.data hay.data

/-- Python str.lower, restricted to ASCII case mapping; the keyword lists
below are already lowercase. -/
def pyLower (s : String) : String :=
  ⟨s.data.map Char.toLower⟩

inductive HandlerKind where
  | hotBeverages
  | coldBeverages
  | bakery
  | mainKitchen
  | dessert
  | defaultHandler
  deriving DecidableEq, Repr

/-- can_handle of each handler, reading the category type and lowercased
product name exactly as the Python predicates do. -/
def canHandle : HandlerKind → Product → Bool
  | .hotBeverages, p =>
    (p.categoryType == "BEBIDAS")
      && (["caliente", "café", "cappuccino", "latte", "espresso",
           "chocolate", "té", "infusion"].any
            (fun kw => pyIn kw (pyLower p.name)))
  | .coldBeverages, p =>
    (p.categoryType == "BEBIDAS")
      && (["frí", "frío", "jugo", "batido", "smoothie",
           "limonada", "helado", "frozen"].any
            (fun kw => pyIn kw (pyLower p.name)))
  | .bakery, p =>
    (p.categoryType == "ENTRADAS")
      && (["pan", "croissant", "tostada", "bagel",
           "muffin", "galleta", "pretzel"].any
            (fun kw => pyIn kw (pyLower p.name)))
  | .mainKitchen, p =>
    (p.categoryType == "COMIDAS")
      || (["sandwich", "ensalada", "hamburguesa", "pizza",
           "pasta", "sopa", "plato", "bowl"].any
            (fun kw => pyIn kw (pyLower p.name)))
  | .dessert, p =>
    (p.categoryType == "POSTRES")
      || (["pastel", "torta", "helado", "brownie",
           "cheesecake", "flan", "mousse", "postre"].any
            (fun kw => pyIn kw (pyLower p.name)))
  | .defaultHandler, _ => true

/-- get_station_type of each handler; DefaultHandler routes to the main
kitchen. -/
def stationTypeOf : HandlerKind → String
  | .hotBeverages => "BEBIDAS_CALIENTES"
  | .coldBeverages => "BEBIDAS_FRIAS"
  | .bakery => "PANADERIA"
  | .mainKitchen => "COCINA"
  | .dessert => "POSTRES"
  | .defaultHandler => "COCINA"

/-- StationHandler.handle walked along an explicit chain: the first handler
that can handle the item determines the station type it is processed at;
none when the chain is exhausted. -/
def chainHandle : List HandlerKind → Product → Option String
  | [], _ => none
  | h :: rest, p =>
    if canHandle h p then some (stationTypeOf h) else chainHandle rest p

/-- KitchenRouter._build_chain: hot beverages, cold beverages, bakery, main
kitchen, desserts, default. -/
def builtChain : List HandlerKind :=
  [.hotBeverages, .coldBeverages, .bakery, .mainKitchen, .dessert,
   .defaultHandler]

/-- Classification of a line item by the router chain (the station type the
item is processed at). -/
def chainClassify (p : Product) : Option String :=
  chainHandle builtChain p

/-- The specification rule list (section 4.2): an ordered list of
(predicate, target station) rules, tested in the fixed priority order hot
beverages, cold beverages, bakery, main kitchen, desserts. -/
def specRules : List (HandlerKind × String) :=
  [(.hotBeverages, "BEBIDAS_CALIENTES"),
   (.coldBeverages, "BEBIDAS_FRIAS"),
   (.bakery, "PANADERIA"),
   (.mainKitchen, "COCINA"),
   (.dessert, "POSTRES")]

/-- The specification evaluation: first matching rule wins; if none match,
a default rule that always matches routes to the main kitchen station. -/
def specClassify (p : Product) : String :=
  match specRules.find? (fun r => canHandle r.1 p) with
  | some (_, st) => st
  | none => "COCINA"

/-! ### Station completion (KitchenRouter.complete_station_item)

Router operations carry the possibly raised error alongside the state the
database holds when the exception escapes, because the queue marking is
already committed before the auto-advance runs. -/

/-- KitchenStation.objects.get(station_type=...): a unique-row lookup. -/
def getStationByType (w : World) (stype : String) : Option KitchenStation :=
  match w.stations.filter (fun s => s.stationType == stype) with
  | [s] => some s
  | _ => none

/-- KitchenRouter._check_order_completion: when no incomplete queue entry for
the order remains and the order is EN_PREPARACION, invoke the lifecycle
advance to LISTO.  An error raised by the advance escapes without further
mutation (advance_order validates before mutating). -/
def checkOrderCompletion (w : World) (oid : Nat) : Option Err × World :=
  let pending :=
    (w.queue.filter (fun q => q.orderId == oid && !q.isCompleted)).length
  if pending = 0 then
    match w.findOrder oid with
    | none => (none, w)
    | some o =>
      if o.status == "EN_PREPARACION" then
        match advanceOrder w oid with
        | .error e => (some e, w)
        | .ok (_, w') => (none, w')
      else (none, w)
  else (none, w)

/-- KitchenRouter.complete_station_item: mark the unique incomplete queue
entry of (station of the given type, order) complete with a timestamp, then
run the completion check; a missing station or queue entry is caught and
reported as false. -/
def completeStationItem (w : World) (stype : String) (oid : Nat) :
    Option Err × Bool × World :=
  match getStationByType w stype with
  | none => (none, false, w)
  | some st =>
    match w.queue.filter
        (fun q => q.stationId == st.id && q.orderId == oid
          && !q.isCompleted) with
    | [qe] =>
      let (t, w1) := w.now
      let qe' := { qe with isCompleted := true, completedAt := some t }
      let w2 := { w1 with
        queue := w1.queue.map (fun x => if x.id = qe.id then qe' else x) }
      match checkOrderCompletion w2 oid with
      | (some e, w3) => (some e, true, w3)
      | (none, w3) => (none, true, w3)
    | _ => (none, false, w)

/-! ### Command log (Command pattern)

apps/orders/patterns/command.py.  Each concrete Command class becomes a
constructor of CmdKind; the mutable object state (executed_at, undone_at and
the per-command memory used by undo) lives in the Cmd record, updated
functionally.  Commands hold their target order by id: executing reads the
current row, which matches the Python aliasing of one shared order instance.
A raising execute or undo in the modelled commands performs no prior
mutation, except CreateOrderCommand.execute, where a missing product mid-loop
would leave partially inserted rows in Python; the embedding returns the
pre-call state there, and no verified property depends on that corner. -/

/-- One entry of the items argument of CreateOrderCommand. -/
structure ItemSpec where
  productId : Nat
  quantity : Nat
  extras : Extras
  deriving DecidableEq, Repr

/-- RemoveItemCommand.item_data: the line data captured before deletion. -/
structure ItemData where
  productId : Nat
  quantity : Nat
  unitPrice : Int
  extras : Extras
  productName : String
  deriving DecidableEq, Repr

inductive CmdKind where
  | createOrder (customerId : Nat) (tableNumber : Int)
      (items : List ItemSpec) (instructions : String)
  | updateStatus (newStatus : String)
  | cancelOrder
  | addItem (productId : Nat) (quantity : Nat) (extras : Extras)
  | removeItem (itemId : Nat)
  | updateQty (itemId : Nat) (newQuantity : Nat)
  deriving DecidableEq, Repr

structure Cmd where
  kind : CmdKind
  orderId : Option Nat := none
  reason : String := ""
  executedAt : Option Nat := none
  undoneAt : Option Nat := none
  prevStatus : String := ""
  prevData : Option (String × Option Nat × Option Nat) := none
  memItemId : Option Nat := none
  memItemData : Option ItemData := none
  memPrevQty : Option Nat := none
  deriving DecidableEq, Repr

/-- CreateOrderCommand.__init__. -/
def mkCreateOrderCommand (customerId : Nat) (tableNumber : Int)
    (items : List ItemSpec) (instructions : String := "") : Cmd :=
  { kind := .createOrder customerId tableNumber items instructions }

/-- UpdateOrderStatusCommand.__init__: captures the previous status from the
order instance. -/
def mkUpdateStatusCommand (o : Order) (newStatus : String)
    (reason : String := "") : Cmd :=
  { kind := .updateStatus newStatus, orderId := some o.id,
    prevStatus := o.status, reason := reason }

/-- CancelOrderCommand.__init__. -/
def mkCancelOrderCommand (o : Order) (reason : String := "") : Cmd :=
  { kind := .cancelOrder, orderId := some o.id, prevStatus := o.status,
    reason := reason }

/-- AddItemCommand.__init__. -/
def mkAddItemCommand (o : Order) (productId : Nat) (quantity : Nat := 1)
    (extras : Extras := []) : Cmd :=
  { kind := .addItem productId quantity extras, orderId := some o.id }

/-- RemoveItemCommand.__init__. -/
def mkRemoveItemCommand (o : Order) (itemId : Nat) : Cmd :=
  { kind := .removeItem itemId, orderId := some o.id }

/-- UpdateItemQuantityCommand.__init__. -/
def mkUpdateQtyCommand (o : Order) (itemId : Nat) (newQuantity : Nat) : Cmd :=
  { kind := .updateQty itemId newQuantity, orderId := some o.id }

/-- Command.can_undo. -/
def Cmd.can_undo (c : Cmd) : Bool :=
  c.executedAt.isSome && c.undoneAt.isNone

/-- The item-creation loop of CreateOrderCommand.execute: for each requested
line, price the product with its extras through the decorators, insert the
row and compute its subtotal. -/
def createOrderItems : World → Nat → List ItemSpec → Except Err World
  | w, _, [] => .ok w
  | w, oid, spec :: rest =>
    match w.findProduct spec.productId with
    | none => .error .notFound
    | some p =>
      let price := decoratedPrice p spec.extras
      let (it, w1) := createItem w oid p spec.quantity price spec.extras
      match calculateSubtotal w1 it.id with
      | .error e => .error e
      | .ok w2 => createOrderItems w2 oid rest

/-- Command.execute of each concrete command (see the file comment above for
the error convention). -/
def Cmd.execute (c : Cmd) (w : World) : Except Err (Cmd × World) :=
  match c.kind with
  | .createOrder customerId tableNumber specs instructions =>
    let o : Order :=
      { id := w.nextOrderId, customerId := customerId,
        tableNumber := tableNumber, status := "PENDIENTE", totalPrice := 0,
        specialInstructions := instructions, preparedAt := none,
        deliveredAt := none }
    let w0 := { w with orders := w.orders ++ [o],
                       nextOrderId := w.nextOrderId + 1 }
    match createOrderItems w0 o.id specs with
    | .error e => .error e
    | .ok w1 =>
      let w2 := calculateTotal w1 o.id
      let (t, w3) := w2.now
      let w4 := w3.logHistory
        { orderId := o.id, action := "CREATE", previousStatus := "",
          newStatus := "PENDIENTE",
          reason := "Orden creada - Mesa " ++ toString tableNumber }
      .ok ({ c with orderId := some o.id, executedAt := some t }, w4)
  | .updateStatus newStatus =>
    match c.orderId.bind w.findOrder with
    | none => .error .notFound
    | some o =>
      let (o1, w1) :=
        if newStatus = "LISTO" then
          let (t, wa) := w.now
          ({ o with preparedAt := some t }, wa)
        else if newStatus = "ENTREGADO" then
          let (t, wa) := w.now
          ({ o with deliveredAt := some t }, wa)
        else (o, w)
      let w2 := w1.saveOrder { o1 with status := newStatus }
      let (t, w3) := w2.now
      let w4 := w3.logHistory
        { orderId := o.id, action := "STATUS_CHANGE",
          previousStatus := c.prevStatus, newStatus := newStatus,
          reason := c.reason }
      .ok ({ c with executedAt := some t }, w4)
  | .cancelOrder =>
    match c.orderId.bind w.findOrder with
    | none => .error .notFound
    | some o =>
      if !o.can_cancel then .error .invalidTransition
      else
        let pd := some (o.status, o.preparedAt, o.deliveredAt)
        let w1 := w.saveOrder { o with status := "CANCELADO" }
        let (t, w2) := w1.now
        let w3 := w2.logHistory
          { orderId := o.id, action := "CANCEL",
            previousStatus := c.prevStatus, newStatus := "CANCELADO",
            reason := c.reason }
        .ok ({ c with executedAt := some t, prevData := pd }, w3)
  | .addItem productId quantity extras =>
    match c.orderId.bind w.findOrder with
    | none => .error .notFound
    | some o =>
      if o.status != "PENDIENTE" then .error .notEditable
      else
        match w.findProduct productId with
        | none => .error .notFound
        | some p =>
          let price := decoratedPrice p extras
          let (it, w1) := createItem w o.id p quantity price extras
          match calculateSubtotal w1 it.id with
          | .error e => .error e
          | .ok w2 =>
            let w3 := calculateTotal w2 o.id
            let (t, w4) := w3.now
            let w5 := w4.logHistory
              { orderId := o.id, action := "ADD_ITEM", previousStatus := "",
                newStatus := "",
                reason := "Item agregado: " ++ p.name ++ " x"
                  ++ toString quantity }
            .ok ({ c with executedAt := some t, memItemId := some it.id },
                 w5)
  | .removeItem itemId =>
    match c.orderId.bind w.findOrder with
    | none => .error .notFound
    | some o =>
      if o.status != "PENDIENTE" then .error .notEditable
      else
        match w.items.find?
            (fun x => x.id == itemId && x.orderId == o.id) with
        | none => .error .notFound
        | some it =>
          match w.findProduct it.productId with
          | none => .error .notFound
          | some p =>
            let d : ItemData :=
              { productId := p.id, quantity := it.quantity,
                unitPrice := it.unitPrice, extras := it.extras,
                productName := p.name }
            let w1 := w.deleteItem itemId
            let w2 := calculateTotal w1 o.id
            let (t, w3) := w2.now
            let w4 := w3.logHistory
              { orderId := o.id, action := "REMOVE_ITEM",
                previousStatus := "", newStatus := "",
                reason := "Item removido: " ++ p.name }
            .ok ({ c with executedAt := some t, memItemData := some d }, w4)
  | .updateQty itemId newQuantity =>
    match c.orderId.bind w.findOrder with
    | none => .error .notFound
    | some o =>
      if o.status != "PENDIENTE" then .error .notEditable
      else
        match w.items.find?
            (fun x => x.id == itemId && x.orderId == o.id) with
        | none => .error .notFound
        | some it =>
          let w1 := w.saveItem { it with quantity := newQuantity }
          match calculateSubtotal w1 itemId with
          | .error e => .error e
          | .ok w2 =>
            let w3 := calculateTotal w2 o.id
            let (t, w4) := w3.now
            let w5 := w4.logHistory
              { orderId := o.id, action := "UPDATE_QUANTITY",
                previousStatus := "", newStatus := "",
                reason := "Cantidad actualizada: "
                  ++ toString it.quantity ++ " -> "
                  ++ toString newQuantity }
            .ok ({ c with executedAt := some t,
                          memItemId := some itemId,
                          memPrevQty := some it.quantity }, w5)

/-- Command.undo of each concrete command.  Every concrete undo first raises
unless can_undo holds. -/
def Cmd.undo (c : Cmd) (w : World) : Except Err (Cmd × World) :=
  if !c.can_undo then .error .cannotUndo
  else
    match c.kind with
    | .createOrder _ _ _ _ =>
      match c.orderId with
      | none => .error .notFound
      | some oid =>
        let w1 := { w with
          orders := w.orders.filter (fun o => o.id != oid),
          items := w.items.filter (fun it => it.orderId != oid),
          queue := w.queue.filter (fun q => q.orderId != oid),
          history := w.history.filter (fun h => h.orderId != oid) }
        let (t, w2) := w1.now
        .ok ({ c with orderId := none, undoneAt := some t }, w2)
    | .updateStatus _ =>
      match c.orderId.bind w.findOrder with
      | none => .error .notFound
      | some o =>
        let o1 :=
          if c.prevStatus = "PENDIENTE" then
            { o with preparedAt := none, deliveredAt := none }
          else if c.prevStatus = "EN_PREPARACION" then
            { o with preparedAt := none, deliveredAt := none }
          else if c.prevStatus = "LISTO" then
            { o with deliveredAt := none }
          else o
        let w1 := w.saveOrder { o1 with status := c.prevStatus }
        let (t, w2) := w1.now
        .ok ({ c with undoneAt := some t }, w2)
    | .cancelOrder =>
      match c.orderId.bind w.findOrder with
      | none => .error .notFound
      | some o =>
        match c.prevData with
        | some (st, pa, da) =>
          let w1 := w.saveOrder
            { o with status := st, preparedAt := pa, deliveredAt := da }
          let (t, w2) := w1.now
          .ok ({ c with undoneAt := some t }, w2)
        | none =>
          let (t, w2) := w.now
          .ok ({ c with undoneAt := some t }, w2)
    | .addItem _ _ _ =>
      match c.orderId with
      | none => .error .notFound
      | some oid =>
        match c.memItemId with
        | some iid =>
          let w1 := w.deleteItem iid
          let w2 := calculateTotal w1 oid
          let (t, w3) := w2.now
          .ok ({ c with memItemId := none, undoneAt := some t }, w3)
        | none =>
          let (t, w2) := w.now
          .ok ({ c with undoneAt := some t }, w2)
    | .removeItem _ =>
      match c.orderId with
      | none => .error .notFound
      | some oid =>
        match c.memItemData with
        | some d =>
          match w.findProduct d.productId with
          | none => .error .notFound
          | some p =>
            let (_, w1) := createItem w oid p d.quantity d.unitPrice d.extras
            let w2 := calculateTotal w1 oid
            let (t, w3) := w2.now
            .ok ({ c with undoneAt := some t }, w3)
        | none =>
          let (t, w2) := w.now
          .ok ({ c with undoneAt := some t }, w2)
    | .updateQty _ _ =>
      match c.orderId with
      | none => .error .notFound
      | some oid =>
        match c.memItemId, c.memPrevQty with
        | some iid, some pq =>
          match w.items.find? (fun x => x.id == iid) with
          | none => .error .notFound
          | some it =>
            let w1 := w.saveItem { it with quantity := pq }
            match calculateSubtotal w1 iid with
            | .error e => .error e
            | .ok w2 =>
              let w3 := calculateTotal w2 oid
              let (t, w4) := w3.now
              .ok ({ c with undoneAt := some t }, w4)
        | _, _ =>
          let (t, w2) := w.now
          .ok ({ c with undoneAt := some t }, w2)

/-! ### Command invoker -/

/-- apps/orders/patterns/command.py CommandInvoker: history list, cursor into
it (starting before the first entry) and the configured maximum length. -/
structure CommandInvoker where
  history : List Cmd := []
  current : Int := -1
  max_history : Nat := 50
  deriving DecidableEq, Repr

namespace CommandInvoker

/-- CommandInvoker.execute_command: run the command; then truncate the
history beyond the cursor, append the executed command, advance the cursor,
and evict the oldest entry when the configured maximum is exceeded.  A
raising command leaves invoker and world untouched. -/
def execute_command (inv : CommandInvoker) (c : Cmd) (w : World) :
    Option Err × CommandInvoker × World :=
  match c.execute w with
  | .error e => (some e, inv, w)
  | .ok (c', w') =>
    let hist := inv.history.take (inv.current + 1).toNat ++ [c']
    let cur := inv.current + 1
    if hist.length > inv.max_history then
      (none, { inv with history := hist.drop 1, current := cur - 1 }, w')
    else
      (none, { inv with history := hist, current := cur }, w')

/-- CommandInvoker.undo: false when the cursor is before the first entry or
the command at the cursor cannot be undone; otherwise undo it (writing the
mutated command object back) and retreat the cursor. -/
def undoLast (inv : CommandInvoker) (w : World) :
    Option Err × Bool × CommandInvoker × World :=
  if inv.current ≥ 0 then
    match inv.history.get? inv.current.toNat with
    | none => (some .notFound, false, inv, w)
    | some c =>
      if !c.can_undo then (none, false, inv, w)
      else
        match c.undo w with
        | .error e => (some e, false, inv, w)
        | .ok (c', w') =>
          (none, true,
           { inv with history := inv.history.set inv.current.toNat c',
                      current := inv.current - 1 }, w')
  else (none, false, inv, w)

/-- CommandInvoker.redo: false when the cursor is at the end; otherwise
advance the cursor and re-invoke execute on that command.  A raising execute
escapes with the cursor already advanced and the command object not yet
mutated. -/
def redoNext (inv : CommandInvoker) (w : World) :
    Option Err × Bool × CommandInvoker × World :=
  if inv.current < (inv.history.length : Int) - 1 then
    let cur := inv.current + 1
    match inv.history.get? cur.toNat with
    | none => (some .notFound, false, inv, w)
    | some c =>
      match c.execute w with
      | .error e => (some e, false, { inv with current := cur }, w)
      | .ok (c', w') =>
        (none, true,
         { inv with history := inv.history.set cur.toNat c',
                    current := cur }, w')
  else (none, false, inv, w)

end CommandInvoker

/-! ### Observable order state

The observable state of one order: its scalar fields and its line items with
the row identity projected away (line items compare by product, quantity,
prices and extras). -/

instance : DecidableEq (Nat × Nat × Int × Extras × Int × Int) :=
  instDecidableEqProd

/-- A line item up to identity. -/
def itemProj (it : OrderItem) : Nat × Nat × Int × Extras × Int × Int :=
  (it.productId, it.quantity, it.unitPrice, it.extras, it.extrasPrice,
   it.subtotal)

/-- The lines of one order, up to identity. -/
def obsItems (w : World) (oid : Nat) : List (Nat × Nat × Int × Extras × Int × Int) :=
  (w.orderItems oid).map itemProj

/-- The scalar fields of one order: status, timestamps, total, table,
instructions. -/
def obsOrder (w : World) (oid : Nat) :
    Option (String × Option Nat × Option Nat × Int × Int × String) :=
  (w.findOrder oid).map (fun o =>
    (o.status, o.preparedAt, o.deliveredAt, o.totalPrice, o.tableNumber,
     o.specialInstructions))

/-! ### Concrete fixtures used by counterexamples and witnesses -/

/-- A hot-beverage product. -/
def cafeProduct : Product :=
  { id := 1, name := "Café Americano", categoryType := "BEBIDAS",
    basePrice := 2, preparationTime := 5, availableExtras := [] }

/-- A main-kitchen product. -/
def sandwichProduct : Product :=
  { id := 2, name := "Sandwich", categoryType := "COMIDAS",
    basePrice := 3, preparationTime := 10, availableExtras := [] }

/-- A product no specific routing rule matches. -/
def aguaProduct : Product :=
  { id := 3, name := "Agua Mineral", categoryType := "OTROS",
    basePrice := 1, preparationTime := 1, availableExtras := [] }

/-- A pending order with no lines (fixture for the zero-item advance). -/
def emptyPendingOrder : Order :=
  { id := 1, customerId := 7, tableNumber := 5, status := "PENDIENTE",
    totalPrice := 0, specialInstructions := "", preparedAt := none,
    deliveredAt := none }

/-- World with a pending order that has zero line items. -/
def W0 : World :=
  { orders := [emptyPendingOrder], items := [],
    products := [cafeProduct, sandwichProduct, aguaProduct], stations := [],
    queue := [], snapshots := [], notifications := [], history := [],
    clock := 0, nextItemId := 10, nextOrderId := 2 }

/-- One existing line of the pending order: a Café Americano priced at its
base. -/
def cafeItem : OrderItem :=
  { id := 10, orderId := 1, productId := 1, quantity := 1, unitPrice := 2,
    extras := [], extrasPrice := 0, subtotal := 2 }

/-- World with a pending order holding one line (total matches). -/
def W1 : World :=
  { orders := [{ emptyPendingOrder with totalPrice := 2 }],
    items := [cafeItem],
    products := [cafeProduct, sandwichProduct, aguaProduct], stations := [],
    queue := [], snapshots := [], notifications := [], history := [],
    clock := 0, nextItemId := 11, nextOrderId := 2 }

/-- The two kitchen stations of the routing fixtures. -/
def hotStation : KitchenStation :=
  { id := 1, name := "Bebidas Calientes", stationType := "BEBIDAS_CALIENTES",
    isActive := true }

def mainStation : KitchenStation :=
  { id := 2, name := "Cocina Principal", stationType := "COCINA",
    isActive := true }

/-- An incomplete queue entry of order 1 at the hot-beverage station. -/
def hotQueueEntry : StationQueue :=
  { id := 100, stationId := 1, orderId := 1, assignedAt := 0,
    completedAt := none, isCompleted := false }

/-- An incomplete queue entry of order 1 at the main kitchen. -/
def mainQueueEntry : StationQueue :=
  { id := 101, stationId := 2, orderId := 1, assignedAt := 0,
    completedAt := none, isCompleted := false }

/-- World with an order in preparation, one line, and one incomplete queue
entry at the hot-beverage station. -/
def W2 : World :=
  { orders := [{ emptyPendingOrder with
                   status := "EN_PREPARACION"
                   totalPrice := 2 }],
    items := [cafeItem],
    products := [cafeProduct, sandwichProduct, aguaProduct],
    stations := [hotStation, mainStation],
    queue := [hotQueueEntry], snapshots := [], notifications := [],
    history := [], clock := 3, nextItemId := 11, nextOrderId := 2 }

/-- W2 with a second incomplete queue entry at the main kitchen. -/
def W2b : World :=
  { W2 with queue := [hotQueueEntry, mainQueueEntry] }

/-- World with a pending order, one line and one incomplete queue entry
(fixture for the cancellation side effects). -/
def W3 : World :=
  { orders := [{ emptyPendingOrder with totalPrice := 2 }],
    items := [cafeItem],
    products := [cafeProduct, sandwichProduct, aguaProduct],
    stations := [hotStation, mainStation],
    queue := [hotQueueEntry], snapshots := [], notifications := [],
    history := [], clock := 3, nextItemId := 11, nextOrderId := 2 }

/-- World with an order in preparation and zero line items (fixture for the
precondition failure of the advance out of IN_PREPARATION). -/
def W4 : World :=
  { W0 with orders := [{ emptyPendingOrder with status := "EN_PREPARACION" }] }

/-- The pending one-line order of W1. -/
def pendingOrder1 : Order := { emptyPendingOrder with totalPrice := 2 }

/-- W1 with a snapshot of its order saved under tag t1. -/
def W5 : World := caretakerSave W1 pendingOrder1 "t1" "antes"

/-- The memento W5 stores under t1. -/
def M5 : OrderMemento := (createMemento W1 pendingOrder1 "t1" "antes").1

/-- A command adding one Sandwich line to the pending order of W1. -/
def c6cmd : Cmd := mkAddItemCommand pendingOrder1 2 1 []

/-- The executed command and resulting world of c6cmd on W1. -/
def c6res : Cmd × World :=
  (c6cmd.execute W1).toOption.getD (c6cmd, W1)

/-- Trace of execute; undo; redo for c6cmd on W1 under a fresh invoker. -/
def c9s1 : Option Err × CommandInvoker × World :=
  CommandInvoker.execute_command {} c6cmd W1

def c9s2 : Option Err × Bool × CommandInvoker × World :=
  CommandInvoker.undoLast c9s1.2.1 c9s1.2.2

def c9s3 : Option Err × Bool × CommandInvoker × World :=
  CommandInvoker.redoNext c9s2.2.2.1 c9s2.2.2.2

/-- The command kinds whose execute ends in Order.calculate_total (create,
add item, remove item, update quantity). -/
def recomputesTotal : CmdKind → Bool
  | .createOrder _ _ _ _ => true
  | .addItem _ _ _ => true
  | .removeItem _ => true
  | .updateQty _ _ => true
  | _ => false

/-- World after adding a Sandwich line to the snapshotted W5 (total 5,
lines café 2 + sandwich 3). -/
def c4w1 : World :=
  ((c6cmd.execute W5).toOption.map Prod.snd).getD W5

/-- The live order of c4w1. -/
def c4order : Order := (c4w1.findOrder 1).getD pendingOrder1

/-- World after restoring the t1 snapshot onto the live order of c4w1. -/
def c4w2 : World :=
  ((caretakerRestore c4w1 c4order "t1").toOption.map Prod.snd).getD c4w1

/-- C7 counterexample second command: remove the existing café line
(item 10) from the pending order. -/
def c7c2 : Cmd := mkRemoveItemCommand pendingOrder1 10

/-- C7 counterexample trace: execute add; execute remove; undo; redo on a
fresh invoker over W1 (the first step is the c9s1 trace). -/
def c7s2 : Option Err × CommandInvoker × World :=
  CommandInvoker.execute_command c9s1.2.1 c7c2 c9s1.2.2

def c7s3 : Option Err × Bool × CommandInvoker × World :=
  CommandInvoker.undoLast c7s2.2.1 c7s2.2.2

def c7s4 : Option Err × Bool × CommandInvoker × World :=
  CommandInvoker.redoNext c7s3.2.2.1 c7s3.2.2.2

/-- C7 witness second command: cancel the pending order. -/
def c7cancel : Cmd := mkCancelOrderCommand pendingOrder1 ""

/-- C7 witness trace second step: execute the cancel after the add. -/
def c7ci : Option Err × CommandInvoker × World :=
  CommandInvoker.execute_command c9s1.2.1 c7cancel c9s1.2.2

/-! ## Helper lemmas -/

theorem orders_setSnaps (w : World) (oid : Nat)
    (l : List (String × OrderMemento)) :
    (w.setSnaps oid l).orders = w.orders := by
  unfold World.setSnaps
  split <;> rfl

theorem orders_caretakerSave (w : World) (o : Order) (tag reason : String) :
    (caretakerSave w o tag reason).orders = w.orders := by
  unfold caretakerSave createMemento
  rw [orders_setSnaps]
  rfl

theorem queue_setSnaps (w : World) (oid : Nat)
    (l : List (String × OrderMemento)) :
    (w.setSnaps oid l).queue = w.queue := by
  unfold World.setSnaps
  split <;> rfl

theorem queue_caretakerSave (w : World) (o : Order) (tag reason : String) :
    (caretakerSave w o tag reason).queue = w.queue := by
  unfold caretakerSave createMemento
  rw [queue_setSnaps]
  rfl

theorem notifications_setSnaps (w : World) (oid : Nat)
    (l : List (String × OrderMemento)) :
    (w.setSnaps oid l).notifications = w.notifications := by
  unfold World.setSnaps
  split <;> rfl

theorem notifications_caretakerSave (w : World) (o : Order)
    (tag reason : String) :
    (caretakerSave w o tag reason).notifications = w.notifications := by
  unfold caretakerSave createMemento
  rw [notifications_setSnaps]
  rfl

theorem items_setSnaps (w : World) (oid : Nat)
    (l : List (String × OrderMemento)) :
    (w.setSnaps oid l).items = w.items := by
  unfold World.setSnaps
  split <;> rfl

theorem items_caretakerSave (w : World) (o : Order) (tag reason : String) :
    (caretakerSave w o tag reason).items = w.items := by
  unfold caretakerSave createMemento
  rw [items_setSnaps]
  rfl

/-- find? after an id-keyed in-place replacement: the replaced row is found
where the old one was. -/
theorem find?_map_replace (l : List Order) (oid : Nat) (o o' : Order)
    (h : l.find? (fun x => x.id == oid) = some o) (hid : o'.id = oid) :
    (l.map (fun x => if x.id = o'.id then o' else x)).find?
      (fun x => x.id == oid) = some o' := by
  induction l with
  | nil => simp at h
  | cons a t ih =>
    by_cases ha : a.id = oid
    · simp [List.find?_cons, ha, hid]
    · rw [List.find?_cons_of_neg _ (by simp [ha])] at h
      simp only [List.map_cons]
      rw [if_neg (by rw [hid]; exact ha)]
      rw [List.find?_cons_of_neg _ (by simp [ha])]
      exact ih h

theorem findOrder_saveOrder (w : World) (oid : Nat) (o o' : Order)
    (h : w.findOrder oid = some o) (hid : o'.id = oid) :
    (w.saveOrder o').findOrder oid = some o' := by
  unfold World.findOrder World.saveOrder at *
  exact find?_map_replace w.orders oid o o' h hid

theorem find?_order_id (w : World) (oid : Nat) (o : Order)
    (h : w.findOrder oid = some o) : o.id = oid := by
  unfold World.findOrder at h
  have := List.find?_some h
  simpa using this

/-! ## Claim C10 -/

/-- C10: OrderMemento.is_valid depends only on the mementos order id,
status, total price and item count: replacing the items snapshot by any list
of the same length, the metadata and the timestamp of a freshly created
memento still validates, and restoring through such an altered memento is
not rejected as corrupt. -/
theorem C10_checksum_scope (oid : Nat) (st : String) (total : Int)
    (items1 items2 : List ItemSnap) (m1 m2 : SnapMeta) (t1 t2 : Nat)
    (w : World) (o : Order)
    (h : items2.length = items1.length) :
    OrderMemento.is_valid
      { mkMemento oid st total items1 m1 t1 with
          itemsSnapshot := items2
          metadata := m2
          timestamp := t2 } = true
    ∧ (restoreFromMemento w o
        { mkMemento oid st total items1 m1 t1 with
            itemsSnapshot := items2
            metadata := m2
            timestamp := t2 }).toOption.isSome = true := by
  have hv : OrderMemento.is_valid
      { mkMemento oid st total items1 m1 t1 with
          itemsSnapshot := items2
          metadata := m2
          timestamp := t2 } = true := by
    simp [mkMemento, OrderMemento.is_valid, h]
  refine ⟨hv, ?_⟩
  simp [restoreFromMemento, hv, Except.toOption]

/-- Witness for C10 at a concrete memento: the items contents, metadata and
timestamp are altered (count kept) and validation still passes. -/
theorem C10_checksum_scope_witness :
    ([({ productId := 2, productName := "Sandwich", quantity := 3,
         unitPrice := 3, extras := [], extrasPrice := 0,
         subtotal := 9 } : ItemSnap)].length
      = [({ productId := 1, productName := "Café Americano", quantity := 1,
            unitPrice := 2, extras := [], extrasPrice := 0,
            subtotal := 2 } : ItemSnap)].length)
    ∧ (OrderMemento.is_valid
        { mkMemento 1 "PENDIENTE" 2
            [{ productId := 1, productName := "Café Americano",
               quantity := 1, unitPrice := 2, extras := [],
               extrasPrice := 0, subtotal := 2 }]
            { tag := "t", reason := "", tableNumber := 5,
              specialInstructions := "" } 0 with
            itemsSnapshot := [{ productId := 2, productName := "Sandwich",
                                quantity := 3, unitPrice := 3, extras := [],
                                extrasPrice := 0, subtotal := 9 }]
            metadata := { tag := "x", reason := "y", tableNumber := 9,
                          specialInstructions := "z" }
            timestamp := 99 } = true
      ∧ (restoreFromMemento W0 emptyPendingOrder
          { mkMemento 1 "PENDIENTE" 2
              [{ productId := 1, productName := "Café Americano",
                 quantity := 1, unitPrice := 2, extras := [],
                 extrasPrice := 0, subtotal := 2 }]
              { tag := "t", reason := "", tableNumber := 5,
                specialInstructions := "" } 0 with
              itemsSnapshot := [{ productId := 2, productName := "Sandwich",
                                  quantity := 3, unitPrice := 3,
                                  extras := [], extrasPrice := 0,
                                  subtotal := 9 }]
              metadata := { tag := "x", reason := "y", tableNumber := 9,
                            specialInstructions := "z" }
              timestamp := 99 }).toOption.isSome = true) :=
  ⟨rfl, C10_checksum_scope 1 "PENDIENTE" 2 _ _ _ _ 0 99 W0
    emptyPendingOrder rfl⟩

/-! ## Claim C8 -/

/-- C8: the router chain tests the rules in the fixed order hot beverages,
cold beverages, bakery, main kitchen, desserts, default, and the first rule
whose predicate matches determines the target station (the chain result
coincides with first-match evaluation of the ordered specification rule
list); a line matched by no specific rule is routed by the always-matching
default rule to the main kitchen station COCINA. -/
theorem C8_classifier_first_match (p : Product) :
    chainClassify p = some (specClassify p)
    ∧ (specRules.all (fun r => !canHandle r.1 p) = true →
        chainClassify p = some "COCINA") := by
  have hd : canHandle .defaultHandler p = true := rfl
  constructor
  · cases h1 : canHandle .hotBeverages p <;>
      cases h2 : canHandle .coldBeverages p <;>
      cases h3 : canHandle .bakery p <;>
      cases h4 : canHandle .mainKitchen p <;>
      cases h5 : canHandle .dessert p <;>
      simp [chainClassify, builtChain, chainHandle, specClassify, specRules,
        List.find?, stationTypeOf, h1, h2, h3, h4, h5, hd]
  · intro h
    simp only [specRules, List.all_cons, List.all_nil, Bool.and_eq_true,
      Bool.not_eq_true', and_true] at h
    obtain ⟨h1, h2, h3, h4, h5⟩ := h
    simp [chainClassify, builtChain, chainHandle, h1, h2, h3, h4, h5, hd,
      stationTypeOf]

/-- Witness for C8: the Agua Mineral line matches none of the five specific
rules and the chain routes it to COCINA. -/
theorem C8_classifier_first_match_witness :
    specRules.all (fun r => !canHandle r.1 aguaProduct) = true
    ∧ chainClassify aguaProduct = some "COCINA" :=
  ⟨by decide, (C8_classifier_first_match aguaProduct).2 (by decide)⟩

/-! ## Claim C1 -/

/-- C1 counterexample: in W0 the order is PENDING with zero line items, yet
advance does not fail with a precondition error and does not leave the
status unchanged: it succeeds and moves the order to EN_PREPARACION. -/
theorem C1_zero_item_pending_advance_succeeds :
    (W0.orderItems 1).length = 0
    ∧ (W0.findOrder 1).map Order.status = some "PENDIENTE"
    ∧ (advanceOrder W0 1).toOption.isSome = true
    ∧ ((advanceOrder W0 1).toOption.bind
        (fun r => r.2.findOrder 1)).map Order.status
        = some "EN_PREPARACION" := by
  refine ⟨by decide, by decide, by decide, by decide⟩

/-- C1 (amended): advancing a PENDING order always succeeds into
IN_PREPARATION, with no check of the line items; the at-least-one-line
precondition is enforced when advancing out of IN_PREPARATION, where an
order with zero line items fails with PreconditionFailed and nothing is
mutated. -/
theorem C1_advance_precondition (w : World) (oid : Nat) (o : Order)
    (h : w.findOrder oid = some o) :
    (o.status = "PENDIENTE" →
      ∃ w', advanceOrder w oid = .ok (.inPreparation, w')
        ∧ (w'.findOrder oid).map Order.status = some "EN_PREPARACION")
    ∧ (o.status = "EN_PREPARACION" → (w.orderItems oid).length = 0 →
        advanceOrder w oid = .error .preconditionFailed) := by
  have hid := find?_order_id w oid o h
  constructor
  · intro hs
    refine ⟨handleState .inPreparation w o, ?_, ?_⟩
    · unfold advanceOrder
      rw [h]
      dsimp only
      rw [hs]
      rfl
    · unfold handleState
      rw [World.findOrder] at *
      rw [orders_caretakerSave]
      have : (notifyKitchen (w.saveOrder { o with status := "EN_PREPARACION" })
          ({ o with status := "EN_PREPARACION" } : Order).id).orders
          = (w.saveOrder { o with status := "EN_PREPARACION" }).orders := rfl
      rw [this]
      have hf := findOrder_saveOrder w oid o
        { o with status := "EN_PREPARACION" } h (by simpa using hid)
      unfold World.findOrder at hf
      rw [hf]
      rfl
  · intro hs hlen
    unfold advanceOrder
    rw [h]
    dsimp only
    rw [hs]
    have hg : getState "EN_PREPARACION" = .inPreparation := by decide
    rw [hg]
    unfold nextState validateTransition
    dsimp only
    rw [hid, hlen]
    rfl

/-- Witness for C1 (amended), second branch at a concrete world: an order in
preparation with zero lines fails with PreconditionFailed. -/
theorem C1_advance_precondition_witness :
    ({ emptyPendingOrder with status := "EN_PREPARACION" } : Order).status
        = "EN_PREPARACION"
    ∧ (W4.orderItems 1).length = 0
    ∧ advanceOrder W4 1 = .error .preconditionFailed :=
  ⟨rfl, rfl,
    (C1_advance_precondition W4 1
      { emptyPendingOrder with status := "EN_PREPARACION" }
      (by decide)).2 rfl rfl⟩

/-! ## Claim C3 -/

theorem find?_pair_map_replace {α : Type} (s : List (Nat × α)) (k : Nat)
    (v : α) (h : s.any (fun p => p.1 == k) = true) :
    (s.map (fun p => if p.1 = k then (k, v) else p)).find?
      (fun p => p.1 == k) = some (k, v) := by
  induction s with
  | nil => simp at h
  | cons a t ih =>
    by_cases ha : a.1 = k
    · simp [ha]
    · simp only [List.any_cons, Bool.or_eq_true, beq_iff_eq] at h
      rcases h with h | h
      · exact absurd h ha
      · simp only [List.map_cons]
        rw [if_neg ha]
        rw [List.find?_cons_of_neg _ (by simp [ha])]
        exact ih (by simpa using h)

theorem find?_pair_append_self {α : Type} (s : List (Nat × α)) (k : Nat)
    (v : α) (h : s.any (fun p => p.1 == k) = false) :
    (s ++ [(k, v)]).find? (fun p => p.1 == k) = some (k, v) := by
  induction s with
  | nil => simp
  | cons a t ih =>
    simp only [List.any_cons, Bool.or_eq_false_iff, beq_eq_false_iff_ne,
      ne_eq] at h
    rw [List.cons_append, List.find?_cons_of_neg _ (by simp [h.1])]
    exact ih (by simp [h.2])

theorem snapsOf_setSnaps_self (w : World) (oid : Nat)
    (l : List (String × OrderMemento)) :
    (w.setSnaps oid l).snapsOf oid = l := by
  unfold World.setSnaps
  split
  case isTrue h =>
    unfold World.snapsOf
    dsimp only
    rw [find?_pair_map_replace _ _ _ h]
  case isFalse h =>
    unfold World.snapsOf
    dsimp only
    rw [find?_pair_append_self _ _ _ (eq_false_of_ne_true h)]

/-- The bounded append of OrderCaretaker.save keeps the new entry last. -/
theorem getLast?_bounded_append (l : List (String × OrderMemento))
    (x : String × OrderMemento) :
    (if (l ++ [x]).length > maxSnapshotsPerOrder then (l ++ [x]).drop 1
     else l ++ [x]).getLast? = some x := by
  split
  case isTrue hlen =>
    cases l with
    | nil => simp [maxSnapshotsPerOrder] at hlen
    | cons a t =>
      rw [List.drop_append_of_le_length (by simp)]
      exact List.getLast?_concat _
  case isFalse _ => exact List.getLast?_concat _

/-- The snapshot list of the saved order after OrderCaretaker.save ends with
the new memento under its tag. -/
theorem snapsOf_caretakerSave_getLast (w : World) (o : Order)
    (tag reason : String) (ht : tag ≠ "") :
    ((caretakerSave w o tag reason).snapsOf o.id).getLast?
      = some (tag, (createMemento w o tag reason).1) := by
  unfold caretakerSave
  dsimp only
  rw [snapsOf_setSnaps_self]
  rw [if_neg ht]
  have : ((createMemento w o tag reason).2.snapsOf o.id) = w.snapsOf o.id := rfl
  rw [this]
  exact getLast?_bounded_append _ _

/-- C3 counterexample: cancelling the pending order of W3 (which has one
incomplete station-queue entry and an empty notification log) leaves the
incomplete queue entry in place and emits no notification at all — in
particular no ORDER_CANCELLED fan-out and no release of the entry, contrary
to the claimed on-enter side effects. -/
theorem C3_cancel_releases_nothing :
    (W3.findOrder 1).map Order.status = some "PENDIENTE"
    ∧ W3.queue = [hotQueueEntry]
    ∧ hotQueueEntry.isCompleted = false
    ∧ (cancelOrder W3 1 "razon").toOption.map World.queue
        = some [hotQueueEntry]
    ∧ (cancelOrder W3 1 "razon").toOption.map World.notifications
        = some [] := by
  refine ⟨by decide, by decide, by decide, by decide, by decide⟩

/-- C3 (amended): entering CANCELLED via cancel(order, reason) sets the
status to CANCELADO, persists it and captures a snapshot tagged cancelled
whose recorded status is CANCELADO; it emits no notification and neither
deletes nor modifies any station-queue entry (incomplete entries for the
order remain; queue rows disappear only through the database cascade when
the order row itself is deleted). -/
theorem C3_cancel_effects (w : World) (oid : Nat) (o : Order)
    (reason : String) (h : w.findOrder oid = some o)
    (hc : stCanCancel (getState o.status) = true) :
    cancelOrder w oid reason = .ok (handleState .cancelled w o)
    ∧ ((handleState .cancelled w o).findOrder oid).map Order.status
        = some "CANCELADO"
    ∧ (handleState .cancelled w o).queue = w.queue
    ∧ (handleState .cancelled w o).notifications = w.notifications
    ∧ ((handleState .cancelled w o).snapsOf oid).getLast?.map
        (fun p => (p.1, p.2.status)) = some ("cancelled", "CANCELADO") := by
  have hid := find?_order_id w oid o h
  refine ⟨?_, ?_, ?_, ?_, ?_⟩
  · unfold cancelOrder
    rw [h]
    dsimp only
    rw [hc]
    rfl
  · unfold handleState
    rw [World.findOrder]
    rw [orders_caretakerSave]
    have hf := findOrder_saveOrder w oid o
      { o with status := "CANCELADO" } h (by simpa using hid)
    unfold World.findOrder at hf
    rw [hf]
    rfl
  · unfold handleState
    rw [queue_caretakerSave]
    rfl
  · unfold handleState
    rw [notifications_caretakerSave]
    rfl
  · unfold handleState
    dsimp only
    have hsid : ({ o with status := "CANCELADO" } : Order).id = oid := by
      simpa using hid
    rw [← hsid]
    rw [snapsOf_caretakerSave_getLast _ _ _ _ (by decide)]
    rfl

/-- Witness for C3 (amended) at the concrete world W3. -/
theorem C3_cancel_effects_witness :
    cancelOrder W3 1 "razon"
        = .ok (handleState .cancelled W3
            { emptyPendingOrder with totalPrice := 2 })
    ∧ ((handleState .cancelled W3
          { emptyPendingOrder with totalPrice := 2 }).findOrder 1).map
        Order.status = some "CANCELADO"
    ∧ (handleState .cancelled W3
        { emptyPendingOrder with totalPrice := 2 }).queue = W3.queue
    ∧ (handleState .cancelled W3
        { emptyPendingOrder with totalPrice := 2 }).notifications
        = W3.notifications
    ∧ ((handleState .cancelled W3
          { emptyPendingOrder with totalPrice := 2 }).snapsOf 1).getLast?.map
        (fun p => (p.1, p.2.status)) = some ("cancelled", "CANCELADO") :=
  C3_cancel_effects W3 1 { emptyPendingOrder with totalPrice := 2 } "razon"
    (by decide) (by decide)

/-! ## Claim C5 -/

/-- C5: restoring an order from the first snapshot saved under a tag copies
the snapshot status, total price, table number and special instructions back
onto the order and persists it, while the line items are exactly those the
order had immediately before the restore (the items field of the world is
untouched, so the lines are not reset to the snapshot contents). -/
theorem C5_restore_frame (w : World) (oid : Nat) (o : Order) (tag : String)
    (l : List (String × OrderMemento)) (m : OrderMemento)
    (h : w.findOrder oid = some o)
    (h1 : w.snapshots.find? (fun p => p.1 == o.id) = some (o.id, l))
    (h2 : l.find? (fun p => p.1 == tag) = some (tag, m))
    (hv : m.is_valid = true) :
    caretakerRestore w o tag
      = .ok (some m, w.saveOrder
          { o with
              status := m.status
              totalPrice := m.totalPrice
              tableNumber := m.metadata.tableNumber
              specialInstructions := m.metadata.specialInstructions })
    ∧ (w.saveOrder
        { o with
            status := m.status
            totalPrice := m.totalPrice
            tableNumber := m.metadata.tableNumber
            specialInstructions := m.metadata.specialInstructions }).items
        = w.items
    ∧ ((w.saveOrder
          { o with
              status := m.status
              totalPrice := m.totalPrice
              tableNumber := m.metadata.tableNumber
              specialInstructions := m.metadata.specialInstructions
            }).findOrder oid).map
        (fun x => (x.status, x.totalPrice, x.tableNumber,
          x.specialInstructions))
        = some (m.status, m.totalPrice, m.metadata.tableNumber,
            m.metadata.specialInstructions) := by
  have hid := find?_order_id w oid o h
  refine ⟨?_, rfl, ?_⟩
  · unfold caretakerRestore
    rw [h1]
    dsimp only
    rw [h2]
    dsimp only
    unfold restoreFromMemento
    rw [hv]
    rfl
  · have hf := findOrder_saveOrder w oid o
      { o with
          status := m.status
          totalPrice := m.totalPrice
          tableNumber := m.metadata.tableNumber
          specialInstructions := m.metadata.specialInstructions }
      h (by simpa using hid)
    rw [hf]
    rfl

/-- Witness for C5 at the concrete snapshot store W5. -/
theorem C5_restore_frame_witness :
    caretakerRestore W5 pendingOrder1 "t1"
      = .ok (some M5, W5.saveOrder
          { pendingOrder1 with
              status := M5.status
              totalPrice := M5.totalPrice
              tableNumber := M5.metadata.tableNumber
              specialInstructions := M5.metadata.specialInstructions })
    ∧ (W5.saveOrder
        { pendingOrder1 with
            status := M5.status
            totalPrice := M5.totalPrice
            tableNumber := M5.metadata.tableNumber
            specialInstructions := M5.metadata.specialInstructions }).items
        = W5.items
    ∧ ((W5.saveOrder
          { pendingOrder1 with
              status := M5.status
              totalPrice := M5.totalPrice
              tableNumber := M5.metadata.tableNumber
              specialInstructions := M5.metadata.specialInstructions
            }).findOrder 1).map
        (fun x => (x.status, x.totalPrice, x.tableNumber,
          x.specialInstructions))
        = some (M5.status, M5.totalPrice, M5.metadata.tableNumber,
            M5.metadata.specialInstructions) :=
  C5_restore_frame W5 1 pendingOrder1 "t1" [("t1", M5)] M5
    (by decide) (by decide) (by decide) (by decide)

/-! ## Claim C2 -/

/-- Facts about entering READY: the order row is saved with status LISTO and
the prepared timestamp, and the queue is untouched. -/
theorem handleState_ready_facts (w : World) (oid : Nat) (o : Order)
    (h : w.findOrder oid = some o) (hid : o.id = oid) :
    (handleState .ready w o).findOrder oid
      = some { o with status := "LISTO", preparedAt := some w.clock }
    ∧ (handleState .ready w o).queue = w.queue := by
  constructor
  · unfold handleState
    dsimp only [World.now]
    rw [World.findOrder, orders_caretakerSave]
    have hstep : (notifyWaiter
        (({ w with clock := w.clock + 1 } : World).saveOrder
          { o with status := "LISTO", preparedAt := some w.clock })
        ({ o with status := "LISTO", preparedAt := some w.clock } : Order).id
        ).orders
        = (({ w with clock := w.clock + 1 } : World).saveOrder
            { o with status := "LISTO", preparedAt := some w.clock }).orders
      := rfl
    rw [hstep]
    have hf := findOrder_saveOrder { w with clock := w.clock + 1 } oid o
      { o with status := "LISTO", preparedAt := some w.clock }
      (show ({ w with clock := w.clock + 1 } : World).findOrder oid = some o
        from h)
      (by simpa using hid)
    unfold World.findOrder at hf
    exact hf
  · unfold handleState
    dsimp only [World.now]
    rw [queue_caretakerSave]
    rfl

/-- C2: for an order in IN_PREPARATION, completeStationItem marks the unique
matching incomplete queue entry complete, stamping it with the current
clock; when that entry was the last incomplete one for the order, the order
is automatically advanced to LISTO; when another incomplete entry for the
order remains, the orders table is untouched (the status stays
EN_PREPARACION). -/
theorem C2_complete_station_item (w : World) (stype : String) (oid : Nat)
    (st : KitchenStation) (qe : StationQueue) (o : Order)
    (hst : w.stations.filter (fun s => s.stationType == stype) = [st])
    (hq : w.queue.filter
        (fun q => q.stationId == st.id && q.orderId == oid
          && !q.isCompleted) = [qe])
    (ho : w.findOrder oid = some o)
    (hip : o.status = "EN_PREPARACION") :
    ((w.queue.filter (fun q => q.orderId == oid && !q.isCompleted) = [qe] →
      (w.orderItems oid).length ≠ 0 →
      (completeStationItem w stype oid).1 = none
      ∧ (completeStationItem w stype oid).2.1 = true
      ∧ { qe with isCompleted := true, completedAt := some w.clock }
          ∈ (completeStationItem w stype oid).2.2.queue
      ∧ ((completeStationItem w stype oid).2.2.findOrder oid).map
          Order.status = some "LISTO")
    ∧ (∀ q2 : StationQueue, q2 ∈ w.queue → q2.orderId = oid →
        q2.isCompleted = false → q2.id ≠ qe.id →
        (completeStationItem w stype oid).1 = none
        ∧ (completeStationItem w stype oid).2.1 = true
        ∧ { qe with isCompleted := true, completedAt := some w.clock }
            ∈ (completeStationItem w stype oid).2.2.queue
        ∧ (completeStationItem w stype oid).2.2.orders = w.orders)) := by
  have hid := find?_order_id w oid o ho
  have hqe : qe ∈ w.queue := by
    have : qe ∈ w.queue.filter
        (fun q => q.stationId == st.id && q.orderId == oid
          && !q.isCompleted) := by rw [hq]; exact List.mem_singleton.mpr rfl
    exact (List.mem_filter.mp this).1
  have hmem' : { qe with isCompleted := true, completedAt := some w.clock }
      ∈ w.queue.map
        (fun x => if x.id = qe.id
          then { qe with isCompleted := true, completedAt := some w.clock }
          else x) := by
    have := List.mem_map_of_mem
      (fun x => if x.id = qe.id
        then { qe with isCompleted := true, completedAt := some w.clock }
        else x) hqe
    dsimp only at this
    rw [if_pos rfl] at this
    exact this
  constructor
  · intro hall hitems
    have hnil : (w.queue.map
        (fun x => if x.id = qe.id
          then { qe with isCompleted := true, completedAt := some w.clock }
          else x)).filter (fun q => q.orderId == oid && !q.isCompleted)
        = [] := by
      rw [List.filter_eq_nil_iff]
      intro x hx hpx
      obtain ⟨y, hy, hyx⟩ := List.mem_map.mp hx
      by_cases hyid : y.id = qe.id
      · rw [if_pos hyid] at hyx
        rw [← hyx] at hpx
        simp at hpx
      · rw [if_neg hyid] at hyx
        have hxf : y ∈ w.queue.filter
            (fun q => q.orderId == oid && !q.isCompleted) :=
          List.mem_filter.mpr ⟨hy, by rw [hyx]; exact hpx⟩
        rw [hall] at hxf
        exact hyid (by rw [List.mem_singleton.mp hxf])
    have hfo : ({ w with
        clock := w.clock + 1
        queue := w.queue.map
          (fun x => if x.id = qe.id
            then { qe with isCompleted := true, completedAt := some w.clock }
            else x) } : World).findOrder oid = some o := ho
    have hgoal : completeStationItem w stype oid
        = (none, true,
            handleState .ready
              { w with
                  clock := w.clock + 1
                  queue := w.queue.map
                    (fun x => if x.id = qe.id
                      then { qe with isCompleted := true,
                                     completedAt := some w.clock }
                      else x) } o) := by
      have hsb : (o.status == "EN_PREPARACION") = true := by rw [hip]; rfl
      have hgs : getState o.status = OrderSt.inPreparation := by
        rw [hip]; decide
      unfold completeStationItem getStationByType
      rw [hst]
      dsimp only
      rw [hq]
      unfold checkOrderCompletion
      dsimp only [World.now]
      have hlen0 :
        (({ w with
            clock := w.clock + 1
            queue := w.queue.map
              (fun x => if x.id = qe.id
                then { qe with isCompleted := true,
                               completedAt := some w.clock }
                else x) } : World).queue.filter
          (fun q => q.orderId == oid && !q.isCompleted)).length = 0 := by
        rw [hnil]
        rfl
      rw [if_pos hlen0]
      rw [hfo]
      dsimp only
      rw [if_pos hsb]
      unfold advanceOrder
      rw [hfo]
      dsimp only
      rw [hgs]
      unfold nextState validateTransition
      dsimp only
      rw [hid]
      have horde : (({ w with
          clock := w.clock + 1
          queue := w.queue.map
            (fun x => if x.id = qe.id
              then { qe with isCompleted := true,
                             completedAt := some w.clock }
              else x) } : World).orderItems oid) = w.orderItems oid := rfl
      rw [horde]
      rw [if_neg hitems]
    rw [hgoal]
    obtain ⟨hr1, hr2⟩ := handleState_ready_facts
      { w with
          clock := w.clock + 1
          queue := w.queue.map
            (fun x => if x.id = qe.id
              then { qe with isCompleted := true,
                             completedAt := some w.clock }
              else x) } oid o hfo hid
    refine ⟨rfl, rfl, ?_, ?_⟩
    · show _ ∈ (handleState .ready _ o).queue
      rw [hr2]
      exact hmem'
    · show ((handleState .ready _ o).findOrder oid).map Order.status = _
      rw [hr1]
      rfl
  · intro q2 hq2 hq2o hq2c hq2ne
    have hne : (w.queue.map
        (fun x => if x.id = qe.id
          then { qe with isCompleted := true, completedAt := some w.clock }
          else x)).filter (fun q => q.orderId == oid && !q.isCompleted)
        ≠ [] := by
      have hx2 : q2 ∈ w.queue.map
          (fun x => if x.id = qe.id
            then { qe with isCompleted := true, completedAt := some w.clock }
            else x) := by
        have := List.mem_map_of_mem
          (fun x => if x.id = qe.id
            then { qe with isCompleted := true,
                           completedAt := some w.clock }
            else x) hq2
        dsimp only at this
        rw [if_neg hq2ne] at this
        exact this
      have : q2 ∈ (w.queue.map
          (fun x => if x.id = qe.id
            then { qe with isCompleted := true, completedAt := some w.clock }
            else x)).filter (fun q => q.orderId == oid && !q.isCompleted) :=
        List.mem_filter.mpr ⟨hx2, by simp [hq2o, hq2c]⟩
      exact List.ne_nil_of_mem this
    have hgoal : completeStationItem w stype oid
        = (none, true,
            { w with
                clock := w.clock + 1
                queue := w.queue.map
                  (fun x => if x.id = qe.id
                    then { qe with isCompleted := true,
                                   completedAt := some w.clock }
                    else x) }) := by
      unfold completeStationItem getStationByType
      rw [hst]
      dsimp only
      rw [hq]
      unfold checkOrderCompletion
      dsimp only [World.now]
      rw [if_neg (by
        intro hzero
        exact hne (List.length_eq_zero.mp hzero))]
    rw [hgoal]
    exact ⟨rfl, rfl, hmem', rfl⟩

/-- Witness for C2 at the concrete worlds W2 (last incomplete entry, order
auto-advances to LISTO) and W2b (a second incomplete entry remains, orders
untouched). -/
theorem C2_complete_station_item_witness :
    ((completeStationItem W2 "BEBIDAS_CALIENTES" 1).1 = none
      ∧ (completeStationItem W2 "BEBIDAS_CALIENTES" 1).2.1 = true
      ∧ { hotQueueEntry with isCompleted := true, completedAt := some 3 }
          ∈ (completeStationItem W2 "BEBIDAS_CALIENTES" 1).2.2.queue
      ∧ ((completeStationItem W2 "BEBIDAS_CALIENTES" 1).2.2.findOrder 1).map
          Order.status = some "LISTO")
    ∧ ((completeStationItem W2b "BEBIDAS_CALIENTES" 1).1 = none
      ∧ (completeStationItem W2b "BEBIDAS_CALIENTES" 1).2.1 = true
      ∧ { hotQueueEntry with isCompleted := true, completedAt := some 3 }
          ∈ (completeStationItem W2b "BEBIDAS_CALIENTES" 1).2.2.queue
      ∧ (completeStationItem W2b "BEBIDAS_CALIENTES" 1).2.2.orders
          = W2b.orders) :=
  ⟨(C2_complete_station_item W2 "BEBIDAS_CALIENTES" 1 hotStation
      hotQueueEntry { emptyPendingOrder with
        status := "EN_PREPARACION"
        totalPrice := 2 }
      (by decide) (by decide) (by decide) (by decide)).1
      (by decide) (by decide),
   (C2_complete_station_item W2b "BEBIDAS_CALIENTES" 1 hotStation
      hotQueueEntry { emptyPendingOrder with
        status := "EN_PREPARACION"
        totalPrice := 2 }
      (by decide) (by decide) (by decide) (by decide)).2
      mainQueueEntry (by decide) (by decide) (by decide) (by decide)⟩

/-! ## Claim C6 -/

theorem getLast?_drop_one_concat {α : Type} (l : List α) (x : α)
    (h : l ≠ []) : ((l ++ [x]).drop 1).getLast? = some x := by
  cases l with
  | nil => exact absurd rfl h
  | cons a t =>
    rw [List.drop_append_of_le_length (by simp)]
    exact List.getLast?_concat _

/-- C6: execute_command first runs the command; on success it truncates the
history beyond the cursor, appends the executed command, advances the
cursor, and when the history length then exceeds the configured maximum it
evicts the oldest entry while retreating the cursor by one — in both cases
the executed command is the last history entry and the cursor points at it.
The configured maximum defaults to 50. -/
theorem C6_invoker_contract (inv : CommandInvoker) (c c' : Cmd)
    (w w' : World)
    (hneg : -1 ≤ inv.current)
    (hlen : inv.current + 1 ≤ (inv.history.length : Int))
    (hmax : 1 ≤ inv.max_history)
    (hex : c.execute w = .ok (c', w')) :
    (CommandInvoker.execute_command inv c w).1 = none
    ∧ (CommandInvoker.execute_command inv c w).2.2 = w'
    ∧ (CommandInvoker.execute_command inv c w).2.1.history
        = (if (inv.history.take (inv.current + 1).toNat ++ [c']).length
              > inv.max_history
           then (inv.history.take (inv.current + 1).toNat ++ [c']).drop 1
           else inv.history.take (inv.current + 1).toNat ++ [c'])
    ∧ (CommandInvoker.execute_command inv c w).2.1.current
        = (if (inv.history.take (inv.current + 1).toNat ++ [c']).length
              > inv.max_history
           then inv.current else inv.current + 1)
    ∧ (CommandInvoker.execute_command inv c w).2.1.history.getLast?
        = some c'
    ∧ (CommandInvoker.execute_command inv c w).2.1.history.get?
        (CommandInvoker.execute_command inv c w).2.1.current.toNat
        = some c'
    ∧ ({} : CommandInvoker).max_history = 50 := by
  have ht : (inv.current + 1).toNat ≤ inv.history.length :=
    Int.toNat_le.mpr hlen
  have htake : (inv.history.take (inv.current + 1).toNat).length
      = (inv.current + 1).toNat := by
    rw [List.length_take]
    exact min_eq_left ht
  unfold CommandInvoker.execute_command
  rw [hex]
  dsimp only
  split
  case isTrue hover =>
    have ht1 : 1 ≤ (inv.current + 1).toNat := by
      rw [List.length_append, htake] at hover
      simp only [List.length_cons, List.length_nil] at hover
      omega
    cases hcons : inv.history.take (inv.current + 1).toNat with
    | nil =>
      rw [hcons] at htake
      simp at htake
      omega
    | cons a t' =>
      have htlen : t'.length + 1 = (inv.current + 1).toNat := by
        rw [hcons] at htake
        simpa using htake
      refine ⟨rfl, rfl, ?_, ?_, ?_, ?_, rfl⟩
      · rfl
      · dsimp only
        omega
      · dsimp only
        exact getLast?_drop_one_concat (a :: t') c' (by simp)
      · dsimp only
        show (t' ++ [c']).get? (inv.current + 1 - 1).toNat = some c'
        have hidx : (inv.current + 1 - 1).toNat = t'.length := by omega
        rw [hidx]
        exact List.get?_concat_length _ _
  case isFalse hover =>
    refine ⟨rfl, rfl, rfl, rfl, ?_, ?_, rfl⟩
    · exact List.getLast?_concat _
    · dsimp only
      nth_rewrite 2 [← htake]
      exact List.get?_concat_length _ _

/-- Witness for C6: a fresh invoker executing the add-item command on W1. -/
theorem C6_invoker_contract_witness :
    (CommandInvoker.execute_command {} c6cmd W1).1 = none
    ∧ (CommandInvoker.execute_command {} c6cmd W1).2.2 = c6res.2
    ∧ (CommandInvoker.execute_command {} c6cmd W1).2.1.history
        = (if (({} : CommandInvoker).history.take
                (({} : CommandInvoker).current + 1).toNat
                ++ [c6res.1]).length > ({} : CommandInvoker).max_history
           then (({} : CommandInvoker).history.take
                  (({} : CommandInvoker).current + 1).toNat
                  ++ [c6res.1]).drop 1
           else ({} : CommandInvoker).history.take
                  (({} : CommandInvoker).current + 1).toNat ++ [c6res.1])
    ∧ (CommandInvoker.execute_command {} c6cmd W1).2.1.current
        = (if (({} : CommandInvoker).history.take
                (({} : CommandInvoker).current + 1).toNat
                ++ [c6res.1]).length > ({} : CommandInvoker).max_history
           then ({} : CommandInvoker).current
           else ({} : CommandInvoker).current + 1)
    ∧ (CommandInvoker.execute_command {} c6cmd W1).2.1.history.getLast?
        = some c6res.1
    ∧ (CommandInvoker.execute_command {} c6cmd W1).2.1.history.get?
        (CommandInvoker.execute_command {} c6cmd W1).2.1.current.toNat
        = some c6res.1
    ∧ ({} : CommandInvoker).max_history = 50 :=
  C6_invoker_contract {} c6cmd c6res.1 W1 c6res.2
    (by decide) (by decide) (by decide) (by rfl)

/-! ## Claim C9 -/

/-- Every concrete undo stamps undone_at when it returns. -/
theorem undo_sets_undoneAt (c c' : Cmd) (w w' : World)
    (h : c.undo w = .ok (c', w')) : c'.undoneAt.isSome = true := by
  unfold Cmd.undo at h
  dsimp only at h
  repeat' (first
    | split at h
    | dsimp only at h)
  all_goals (try cases h)
  all_goals rfl

/-- No concrete execute touches undone_at. -/
theorem execute_preserves_undoneAt (c c' : Cmd) (w w' : World)
    (h : c.execute w = .ok (c', w')) : c'.undoneAt = c.undoneAt := by
  unfold Cmd.execute at h
  dsimp only at h
  repeat' (first
    | split at h
    | dsimp only at h)
  all_goals (try cases h)
  all_goals rfl

/-- C9: after execute(C); undo(); redo() on a fresh invoker, a further
undo() returns false and leaves invoker and world unchanged; the command in
the history can never be undone again, because redo re-invoked execute,
which sets executed_at but never clears undone_at. -/
theorem C9_redo_never_undoable (c : Cmd) (w : World)
    (inv1 inv2 inv3 : CommandInvoker) (w1 w2 w3 : World)
    (e3 : Option Err) (b3 : Bool)
    (h1 : CommandInvoker.execute_command {} c w = (none, inv1, w1))
    (h2 : CommandInvoker.undoLast inv1 w1 = (none, true, inv2, w2))
    (h3 : CommandInvoker.redoNext inv2 w2 = (e3, b3, inv3, w3)) :
    CommandInvoker.undoLast inv3 w3 = (none, false, inv3, w3)
    ∧ ∀ c3 ∈ inv3.history, c3.can_undo = false := by
  cases hce : c.execute w with
  | error e =>
    rw [CommandInvoker.execute_command, hce] at h1
    simp at h1
  | ok p =>
    obtain ⟨c1, w1'⟩ := p
    have hstep : CommandInvoker.execute_command {} c w
        = (none, ⟨[c1], 0, 50⟩, w1') := by
      simp [CommandInvoker.execute_command, hce]
    rw [hstep] at h1
    simp only [Prod.mk.injEq, true_and] at h1
    obtain ⟨hinv1, hw1⟩ := h1
    subst hinv1
    subst hw1
    cases hcu : c1.can_undo with
    | false =>
      have : CommandInvoker.undoLast ⟨[c1], 0, 50⟩ w1'
          = (none, false, ⟨[c1], 0, 50⟩, w1') := by
        simp [CommandInvoker.undoLast, hcu]
      rw [this] at h2
      simp at h2
    | true =>
      cases hun : c1.undo w1' with
      | error e =>
        have : CommandInvoker.undoLast ⟨[c1], 0, 50⟩ w1'
            = (some e, false, ⟨[c1], 0, 50⟩, w1') := by
          simp [CommandInvoker.undoLast, hcu, hun]
        rw [this] at h2
        simp at h2
      | ok q =>
        obtain ⟨c1', w2'⟩ := q
        have hust : CommandInvoker.undoLast ⟨[c1], 0, 50⟩ w1'
            = (none, true, ⟨[c1'], -1, 50⟩, w2') := by
          simp [CommandInvoker.undoLast, hcu, hun]
        rw [hust] at h2
        simp only [Prod.mk.injEq, true_and] at h2
        obtain ⟨hinv2, hw2⟩ := h2
        subst hinv2
        subst hw2
        have hundone : c1'.undoneAt.isSome = true :=
          undo_sets_undoneAt c1 c1' w1' w2' hun
        have hhead : inv3.history = [c1'] ∧ w3 = w2'
              ∧ inv3.current = 0
            ∨ ∃ c1'' w3', c1'.execute w2' = .ok (c1'', w3')
              ∧ inv3.history = [c1''] ∧ w3 = w3' ∧ inv3.current = 0 := by
          cases hre : c1'.execute w2' with
          | error e =>
            have : CommandInvoker.redoNext ⟨[c1'], -1, 50⟩ w2'
                = (some e, false, ⟨[c1'], 0, 50⟩, w2') := by
              simp [CommandInvoker.redoNext, hre]
            rw [this] at h3
            simp only [Prod.mk.injEq] at h3
            exact Or.inl ⟨by rw [← h3.2.2.1], h3.2.2.2.symm,
              by rw [← h3.2.2.1]⟩
          | ok r =>
            obtain ⟨c1'', w3'⟩ := r
            have : CommandInvoker.redoNext ⟨[c1'], -1, 50⟩ w2'
                = (none, true, ⟨[c1''], 0, 50⟩, w3') := by
              simp [CommandInvoker.redoNext, hre]
            rw [this] at h3
            simp only [Prod.mk.injEq] at h3
            exact Or.inr ⟨c1'', w3', rfl, by rw [← h3.2.2.1],
              h3.2.2.2.symm, by rw [← h3.2.2.1]⟩
        have hcx : ∃ cx, inv3.history = [cx] ∧ cx.undoneAt.isSome = true
            ∧ inv3.current = 0 := by
          rcases hhead with ⟨hh, -, hc⟩ | ⟨c1'', w3', hre, hh, -, hc⟩
          · exact ⟨c1', hh, hundone, hc⟩
          · refine ⟨c1'', hh, ?_, hc⟩
            rw [execute_preserves_undoneAt c1' c1'' w2' w3' hre]
            exact hundone
        obtain ⟨cx, hh, hxu, hcur3⟩ := hcx
        have hcux : cx.can_undo = false := by
          unfold Cmd.can_undo
          cases hx : cx.undoneAt with
          | none => rw [hx] at hxu; simp at hxu
          | some t => simp
        refine ⟨?_, ?_⟩
        · simp [CommandInvoker.undoLast, hcur3, hh, hcux]
        · intro c3 hc3
          rw [hh] at hc3
          rw [List.mem_singleton.mp hc3]
          exact hcux


/-- Witness for C9 on the concrete trace of the add-item command. -/
theorem C9_redo_never_undoable_witness :
    CommandInvoker.undoLast c9s3.2.2.1 c9s3.2.2.2
        = (none, false, c9s3.2.2.1, c9s3.2.2.2)
    ∧ ∀ c3 ∈ c9s3.2.2.1.history, c3.can_undo = false :=
  C9_redo_never_undoable c6cmd W1 c9s1.2.1 c9s2.2.2.1 c9s3.2.2.1
    c9s1.2.2 c9s2.2.2.2 c9s3.2.2.2 c9s3.1 c9s3.2.1
    (by rfl) (by rfl) (by rfl)

/-! ## Claim C4 -/

/-- Order.calculate_total establishes the total invariant for whatever
order row the lookup returns, leaving the items untouched. -/
theorem calcTotal_spec (w : World) (oid : Nat) (o : Order)
    (h : w.findOrder oid = some o) :
    ((calculateTotal w oid).findOrder oid).map Order.totalPrice
      = some (sumSubtotals w oid)
    ∧ (calculateTotal w oid).items = w.items := by
  unfold calculateTotal
  rw [h]
  have hid := find?_order_id w oid o h
  have hf := findOrder_saveOrder w oid o
    { o with totalPrice := sumSubtotals w oid } h (by simpa using hid)
  refine ⟨?_, rfl⟩
  rw [hf]
  rfl

theorem calculateSubtotal_orders (w : World) (iid : Nat) (w' : World)
    (h : calculateSubtotal w iid = .ok w') : w'.orders = w.orders := by
  unfold calculateSubtotal at h
  repeat' split at h
  all_goals (try cases h)
  all_goals rfl

theorem createOrderItems_orders (specs : List ItemSpec) :
    ∀ (w : World) (oid : Nat) (w' : World),
    createOrderItems w oid specs = .ok w' → w'.orders = w.orders := by
  induction specs with
  | nil =>
    intro w oid w' h
    cases h
    rfl
  | cons s rest ih =>
    intro w oid w' h
    unfold createOrderItems at h
    cases hp : w.findProduct s.productId with
    | none =>
      rw [hp] at h
      cases h
    | some p =>
      rw [hp] at h
      dsimp only at h
      cases hcs : calculateSubtotal
          (createItem w oid p s.quantity (decoratedPrice p s.extras)
            s.extras).2
          (createItem w oid p s.quantity (decoratedPrice p s.extras)
            s.extras).1.id with
      | error e =>
        rw [hcs] at h
        cases h
      | ok w2 =>
        rw [hcs] at h
        have h2 := ih _ oid _ h
        rw [h2, calculateSubtotal_orders _ _ _ hcs]
        rfl

theorem find?_mem_isSome {α : Type} (l : List α) (p : α → Bool) (x : α)
    (hx : x ∈ l) (hpx : p x = true) : ∃ y, l.find? p = some y := by
  induction l with
  | nil => cases hx
  | cons a t ih =>
    cases ha : p a with
    | true => exact ⟨a, List.find?_cons_of_pos _ ha⟩
    | false =>
      rw [List.find?_cons_of_neg _ (by simp [ha])]
      rcases List.mem_cons.mp hx with rfl | hxt
      · rw [ha] at hpx
        cases hpx
      · exact ih hxt

/-- The sum of subtotals depends only on the items table. -/
theorem sumSubtotals_congr (w w' : World) (oid : Nat)
    (h : w'.items = w.items) : sumSubtotals w' oid = sumSubtotals w oid := by
  unfold sumSubtotals World.orderItems
  rw [h]

/-- The trailing clock tick and audit append after calculate_total touch
neither orders nor items, so the total invariant carries over. -/
theorem total_inv_log (w : World) (oid : Nat) (r : HistoryRec)
    (h : (w.findOrder oid).map Order.totalPrice = some (sumSubtotals w oid)) :
    ((w.now.2.logHistory r).findOrder oid).map Order.totalPrice
      = some (sumSubtotals (w.now.2.logHistory r) oid) := h

/-- C4 counterexample: in the concrete pipeline snapshot; add item;
restore, the invariant holds after the add (total 5 = 2 + 3), but the
committed restore writes the snapshot total 2 onto the order while the
line items still sum to 5 — restore sets the total independently of the
line items. -/
theorem C4_restore_breaks_total_invariant :
    (c4w1.findOrder 1).map Order.totalPrice = some 5
    ∧ sumSubtotals c4w1 1 = 5
    ∧ (c4w2.findOrder 1).map Order.totalPrice = some 2
    ∧ sumSubtotals c4w2 1 = 5
    ∧ (c4w2.findOrder 1).map Order.totalPrice
        ≠ some (sumSubtotals c4w2 1) := by
  refine ⟨by decide, by decide, by decide, by decide, by decide⟩

/-- C4 (amended): after a successful CreateOrder, AddItem, RemoveItem or
UpdateItemQuantity command — the mutations that end in calculate_total —
the total price of the target order equals the sum of its line subtotals;
restoring a snapshot is the exception: it writes the memento total without
touching the line items and can break the equality. -/
theorem C4_total_invariant (c : Cmd) (w : World) (c' : Cmd) (w' : World)
    (oid : Nat)
    (hkind : recomputesTotal c.kind = true)
    (hex : c.execute w = .ok (c', w'))
    (horder : c'.orderId = some oid) :
    (w'.findOrder oid).map Order.totalPrice = some (sumSubtotals w' oid) := by
  cases hk : c.kind with
  | updateStatus s =>
    rw [hk] at hkind
    cases hkind
  | cancelOrder =>
    rw [hk] at hkind
    cases hkind
  | createOrder customerId tableNumber specs instructions =>
    unfold Cmd.execute at hex
    rw [hk] at hex
    dsimp only at hex
    split at hex
    next e heq =>
      cases hex
    next w1 heq =>
      cases hex
      have hoid : oid = w.nextOrderId := by
        simpa using horder.symm
      subst hoid
      have ho1 : ∃ o2, w1.findOrder w.nextOrderId = some o2 := by
        unfold World.findOrder
        rw [createOrderItems_orders specs _ _ _ heq]
        exact find?_mem_isSome _ _
          { id := w.nextOrderId, customerId := customerId,
            tableNumber := tableNumber, status := "PENDIENTE",
            totalPrice := 0, specialInstructions := instructions,
            preparedAt := none, deliveredAt := none }
          (by simp) (by simp)
      obtain ⟨o2, ho2⟩ := ho1
      exact total_inv_log _ _ _
              (((calcTotal_spec w1 w.nextOrderId o2 ho2).1).trans
                (congrArg some
                  (sumSubtotals_congr _ _ _
                    (calcTotal_spec w1 w.nextOrderId o2 ho2).2).symm))
  | addItem pid qty extras =>
    unfold Cmd.execute at hex
    rw [hk] at hex
    dsimp only at hex
    cases hfo : c.orderId.bind w.findOrder with
    | none =>
      rw [hfo] at hex
      cases hex
    | some o =>
      rw [hfo] at hex
      dsimp only at hex
      cases hst : o.status != "PENDIENTE" with
      | true =>
        rw [hst] at hex
        simp at hex
      | false =>
        rw [hst] at hex
        simp only [Bool.false_eq_true, if_false] at hex
        cases hp : w.findProduct pid with
        | none =>
          rw [hp] at hex
          cases hex
        | some p =>
          rw [hp] at hex
          dsimp only at hex
          cases hcs : calculateSubtotal
              (createItem w o.id p qty (decoratedPrice p extras) extras).2
              (createItem w o.id p qty (decoratedPrice p extras)
                extras).1.id with
          | error e =>
            rw [hcs] at hex
            cases hex
          | ok w2 =>
            rw [hcs] at hex
            dsimp only at hex
            cases hex
            have hoid : oid = o.id := by
              have hcid : c.orderId = some oid := horder
              rw [hcid] at hfo
              exact (find?_order_id w oid o (by simpa using hfo)).symm
            subst hoid
            have ho2 : w2.findOrder o.id = some o := by
              unfold World.findOrder
              rw [calculateSubtotal_orders _ _ _ hcs]
              have hcid : c.orderId = some o.id := horder
              rw [hcid] at hfo
              simpa [World.findOrder] using hfo
            exact total_inv_log _ _ _
              (((calcTotal_spec w2 o.id o ho2).1).trans
                (congrArg some
                  (sumSubtotals_congr _ _ _
                    (calcTotal_spec w2 o.id o ho2).2).symm))
  | removeItem iid =>
    unfold Cmd.execute at hex
    rw [hk] at hex
    dsimp only at hex
    cases hfo : c.orderId.bind w.findOrder with
    | none =>
      rw [hfo] at hex
      cases hex
    | some o =>
      rw [hfo] at hex
      dsimp only at hex
      cases hst : o.status != "PENDIENTE" with
      | true =>
        rw [hst] at hex
        simp at hex
      | false =>
        rw [hst] at hex
        simp only [Bool.false_eq_true, if_false] at hex
        cases hit : w.items.find? (fun x => x.id == iid && x.orderId == o.id)
            with
        | none =>
          rw [hit] at hex
          cases hex
        | some it =>
          rw [hit] at hex
          dsimp only at hex
          cases hp : w.findProduct it.productId with
          | none =>
            rw [hp] at hex
            cases hex
          | some p =>
            rw [hp] at hex
            dsimp only at hex
            cases hex
            have hoid : oid = o.id := by
              have hcid : c.orderId = some oid := horder
              rw [hcid] at hfo
              exact (find?_order_id w oid o (by simpa using hfo)).symm
            subst hoid
            have ho2 : (w.deleteItem iid).findOrder o.id = some o := by
              have hcid : c.orderId = some o.id := horder
              rw [hcid] at hfo
              simpa [World.findOrder, World.deleteItem] using hfo
            exact total_inv_log _ _ _
              (((calcTotal_spec (w.deleteItem iid) o.id o ho2).1).trans
                (congrArg some
                  (sumSubtotals_congr _ _ _
                    (calcTotal_spec (w.deleteItem iid) o.id o ho2).2).symm))
  | updateQty iid nq =>
    unfold Cmd.execute at hex
    rw [hk] at hex
    dsimp only at hex
    cases hfo : c.orderId.bind w.findOrder with
    | none =>
      rw [hfo] at hex
      cases hex
    | some o =>
      rw [hfo] at hex
      dsimp only at hex
      cases hst : o.status != "PENDIENTE" with
      | true =>
        rw [hst] at hex
        simp at hex
      | false =>
        rw [hst] at hex
        simp only [Bool.false_eq_true, if_false] at hex
        cases hit : w.items.find? (fun x => x.id == iid && x.orderId == o.id)
            with
        | none =>
          rw [hit] at hex
          cases hex
        | some it =>
          rw [hit] at hex
          dsimp only at hex
          cases hcs : calculateSubtotal
              (w.saveItem { it with quantity := nq }) iid with
          | error e =>
            rw [hcs] at hex
            cases hex
          | ok w2 =>
            rw [hcs] at hex
            dsimp only at hex
            cases hex
            have hoid : oid = o.id := by
              have hcid : c.orderId = some oid := horder
              rw [hcid] at hfo
              exact (find?_order_id w oid o (by simpa using hfo)).symm
            subst hoid
            have ho2 : w2.findOrder o.id = some o := by
              unfold World.findOrder
              rw [calculateSubtotal_orders _ _ _ hcs]
              have hcid : c.orderId = some o.id := horder
              rw [hcid] at hfo
              simpa [World.findOrder, World.saveItem] using hfo
            exact total_inv_log _ _ _
              (((calcTotal_spec w2 o.id o ho2).1).trans
                (congrArg some
                  (sumSubtotals_congr _ _ _
                    (calcTotal_spec w2 o.id o ho2).2).symm))

/-- Witness for C4 (amended): the add-item command on W1 re-establishes the
invariant. -/
theorem C4_total_invariant_witness :
    (c6res.2.findOrder 1).map Order.totalPrice
      = some (sumSubtotals c6res.2 1) :=
  C4_total_invariant c6cmd W1 c6res.1 c6res.2 1 (by decide) (by rfl)
    (by decide)

/-! ## Claim C7 -/

@[simp] theorem now_snd_orders (w : World) : w.now.2.orders = w.orders := rfl

@[simp] theorem now_snd_items (w : World) : w.now.2.items = w.items := rfl

@[simp] theorem logHistory_orders (w : World) (r : HistoryRec) :
    (w.logHistory r).orders = w.orders := rfl

@[simp] theorem logHistory_items (w : World) (r : HistoryRec) :
    (w.logHistory r).items = w.items := rfl

@[simp] theorem saveOrder_items (w : World) (o : Order) :
    (w.saveOrder o).items = w.items := rfl

@[simp] theorem saveItem_orders (w : World) (it : OrderItem) :
    (w.saveItem it).orders = w.orders := rfl

@[simp] theorem deleteItem_orders (w : World) (iid : Nat) :
    (w.deleteItem iid).orders = w.orders := rfl

@[simp] theorem now_snd_products (w : World) : w.now.2.products = w.products
    := rfl

/-- Every concrete execute stamps executed_at when it returns. -/
theorem execute_sets_executedAt (c c' : Cmd) (w w' : World)
    (h : c.execute w = .ok (c', w')) : c'.executedAt.isSome = true := by
  unfold Cmd.execute at h
  dsimp only at h
  repeat' (first
    | split at h
    | dsimp only at h)
  all_goals (try cases h)
  all_goals rfl

theorem items_saveItem (w : World) (it : OrderItem) :
    (w.saveItem it).items
      = w.items.map (fun x => if x.id = it.id then it else x) := rfl

theorem products_saveItem (w : World) (it : OrderItem) :
    (w.saveItem it).products = w.products := rfl

theorem items_calculateTotal (w : World) (oid : Nat) :
    (calculateTotal w oid).items = w.items := by
  unfold calculateTotal
  split <;> rfl

theorem products_calculateTotal (w : World) (oid : Nat) :
    (calculateTotal w oid).products = w.products := by
  unfold calculateTotal
  split <;> rfl

/-- find? over an id-keyed in-place replacement of the items table: when a
row with the id exists, the single-id predicate finds the replacement. -/
theorem find?_saveItem_self (l : List OrderItem) (iid : Nat) (y : OrderItem)
    (hid : y.id = iid) (hs : ∃ x ∈ l, x.id = iid) :
    (l.map (fun x => if x.id = y.id then y else x)).find?
      (fun x => x.id == iid) = some y := by
  induction l with
  | nil =>
    obtain ⟨x, hx, -⟩ := hs
    cases hx
  | cons a t ih =>
    simp only [List.map_cons]
    by_cases ha : a.id = iid
    · rw [if_pos (ha.trans hid.symm)]
      exact List.find?_cons_of_pos _ (by simp [hid])
    · rw [if_neg (fun hc => ha (hc.trans hid))]
      rw [List.find?_cons_of_neg _ (by simp [ha])]
      apply ih
      obtain ⟨x, hx, hxid⟩ := hs
      cases hx with
      | head => exact absurd hxid ha
      | tail _ hmem => exact ⟨x, hmem, hxid⟩

/-- The same with the id-and-order predicate that Command.execute uses. -/
theorem find?_saveItem_conj (l : List OrderItem) (iid oid2 : Nat)
    (y : OrderItem) (hid : y.id = iid) (hor : y.orderId = oid2)
    (hs : ∃ x ∈ l, x.id = iid) :
    (l.map (fun x => if x.id = y.id then y else x)).find?
      (fun x => x.id == iid && x.orderId == oid2) = some y := by
  induction l with
  | nil =>
    obtain ⟨x, hx, -⟩ := hs
    cases hx
  | cons a t ih =>
    simp only [List.map_cons]
    by_cases ha : a.id = iid
    · rw [if_pos (ha.trans hid.symm)]
      exact List.find?_cons_of_pos _ (by simp [hid, hor])
    · rw [if_neg (fun hc => ha (hc.trans hid))]
      rw [List.find?_cons_of_neg _ (by simp [ha])]
      apply ih
      obtain ⟨x, hx, hxid⟩ := hs
      cases hx with
      | head => exact absurd hxid ha
      | tail _ hmem => exact ⟨x, hmem, hxid⟩

/-- Two consecutive saves of rows with the same id collapse to the last. -/
theorem saveItem_saveItem (w : World) (a b : OrderItem) (h : b.id = a.id) :
    (w.saveItem a).saveItem b = w.saveItem b := by
  unfold World.saveItem
  dsimp only
  have hmap : (w.items.map (fun x => if x.id = a.id then a else x)).map
      (fun x => if x.id = b.id then b else x)
      = w.items.map (fun x => if x.id = b.id then b else x) := by
    rw [List.map_map]
    apply List.map_congr_left
    intro x _
    dsimp only [Function.comp]
    by_cases hxa : x.id = a.id
    · rw [if_pos hxa, if_pos h.symm, if_pos (hxa.trans h.symm)]
    · rw [if_neg hxa]
  rw [hmap]

/-- Round trip of CancelOrderCommand: executing, undoing and re-executing
reaches the same observable order state as the first execution. -/
theorem cancel_roundtrip (c2 : Cmd) (w1 : World) (c2e : Cmd) (w2 : World)
    (oid : Nat)
    (hk : c2.kind = .cancelOrder)
    (hcid : c2.orderId = some oid)
    (hfr : c2.undoneAt = none)
    (hex : c2.execute w1 = .ok (c2e, w2)) :
    ∃ c2u w3 c2r w4,
      c2e.can_undo = true
      ∧ c2e.undo w2 = .ok (c2u, w3)
      ∧ c2u.execute w3 = .ok (c2r, w4)
      ∧ obsOrder w4 oid = obsOrder w2 oid
      ∧ obsItems w4 oid = obsItems w2 oid := by
  obtain ⟨k, cid, rsn, exa, una, pst, pd, mii, mid, mpq⟩ := c2
  dsimp only at hk hcid hfr
  subst hk
  subst hcid
  subst hfr
  unfold Cmd.execute at hex
  dsimp only [Option.bind] at hex
  cases hfo : w1.findOrder oid with
  | none =>
    rw [hfo] at hex
    cases hex
  | some o =>
    rw [hfo] at hex
    dsimp only at hex
    cases hcc : o.can_cancel with
    | false =>
      rw [hcc] at hex
      simp at hex
    | true =>
      rw [hcc] at hex
      simp only [Bool.not_true, Bool.false_eq_true, if_false] at hex
      injection hex with hpair
      rw [Prod.mk.injEq] at hpair
      obtain ⟨hP, hW⟩ := hpair
      have hoid : o.id = oid := find?_order_id w1 oid o hfo
      subst hP
      have hw2o : w2.findOrder oid = some { o with status := "CANCELADO" }
        := by
        rw [← hW]
        unfold World.findOrder
        rw [logHistory_orders, now_snd_orders]
        have h5 := findOrder_saveOrder w1 oid o
          { o with status := "CANCELADO" } hfo hoid
        unfold World.findOrder at h5
        exact h5
      have hw3o : ((w2.saveOrder o).now.2).findOrder oid = some o := by
        unfold World.findOrder
        rw [now_snd_orders]
        have h6 := findOrder_saveOrder w2 oid
          { o with status := "CANCELADO" } o hw2o hoid
        unfold World.findOrder at h6
        exact h6
      refine ⟨⟨.cancelOrder, some oid, rsn, some w1.clock, some w2.clock,
                pst, some (o.status, o.preparedAt, o.deliveredAt),
                mii, mid, mpq⟩,
              (w2.saveOrder o).now.2,
              ⟨.cancelOrder, some oid, rsn, some (w2.clock + 1),
                some w2.clock, pst,
                some (o.status, o.preparedAt, o.deliveredAt),
                mii, mid, mpq⟩,
              ((((w2.saveOrder o).now.2).saveOrder
                  { o with status := "CANCELADO" }).now.2).logHistory
                { orderId := o.id, action := "CANCEL",
                  previousStatus := pst,
                  newStatus := "CANCELADO", reason := rsn },
              ?_, ?_, ?_, ?_, ?_⟩
      · rfl
      · unfold Cmd.undo
        dsimp only [Option.bind]
        rw [hw2o]
        rfl
      · unfold Cmd.execute
        dsimp only [Option.bind]
        rw [hw3o]
        dsimp only
        rw [hcc]
        simp only [Bool.not_true, Bool.false_eq_true, if_false]
        rfl
      · have hw4o : (((((w2.saveOrder o).now.2).saveOrder
            { o with status := "CANCELADO" }).now.2).logHistory
              { orderId := o.id, action := "CANCEL",
                previousStatus := pst,
                newStatus := "CANCELADO",
                reason := rsn }).findOrder oid
            = some { o with status := "CANCELADO" } := by
          unfold World.findOrder
          rw [logHistory_orders, now_snd_orders]
          have h7 := findOrder_saveOrder ((w2.saveOrder o).now.2) oid o
            { o with status := "CANCELADO" } hw3o hoid
          unfold World.findOrder at h7
          exact h7
        unfold obsOrder
        rw [hw4o, hw2o]
      · unfold obsItems World.orderItems
        have hit : (((((w2.saveOrder o).now.2).saveOrder
            { o with status := "CANCELADO" }).now.2).logHistory
              { orderId := o.id, action := "CANCEL",
                previousStatus := pst,
                newStatus := "CANCELADO",
                reason := rsn }).items = w2.items := rfl
        rw [hit]

theorem obsItems_congr (w w2a : World) (oid : Nat) (h : w2a.items = w.items) :
    obsItems w2a oid = obsItems w oid := by
  unfold obsItems World.orderItems
  rw [h]

/-- Round trip of UpdateItemQuantityCommand: executing, undoing and
re-executing reaches the same observable order state as the first
execution. -/
theorem updateQty_roundtrip (iid nq : Nat) (c2 : Cmd) (w1 : World)
    (c2e : Cmd) (w2 : World) (oid : Nat)
    (hk : c2.kind = .updateQty iid nq)
    (hcid : c2.orderId = some oid)
    (hfr : c2.undoneAt = none)
    (hex : c2.execute w1 = .ok (c2e, w2)) :
    ∃ c2u w3 c2r w4,
      c2e.can_undo = true
      ∧ c2e.undo w2 = .ok (c2u, w3)
      ∧ c2u.execute w3 = .ok (c2r, w4)
      ∧ obsOrder w4 oid = obsOrder w2 oid
      ∧ obsItems w4 oid = obsItems w2 oid := by
  obtain ⟨k, cid, rsn, exa, una, pst, pd, mii, mid, mpq⟩ := c2
  dsimp only at hk hcid hfr
  subst hk
  subst hcid
  subst hfr
  unfold Cmd.execute at hex
  dsimp only [Option.bind] at hex
  cases hfo : w1.findOrder oid with
  | none =>
    rw [hfo] at hex
    cases hex
  | some o =>
    rw [hfo] at hex
    dsimp only at hex
    cases hst : o.status != "PENDIENTE" with
    | true =>
      rw [hst] at hex
      simp at hex
    | false =>
      rw [hst] at hex
      simp only [Bool.false_eq_true, if_false] at hex
      cases hit : w1.items.find? (fun x => x.id == iid && x.orderId == o.id)
          with
      | none =>
        rw [hit] at hex
        cases hex
      | some it =>
        rw [hit] at hex
        dsimp only at hex
        have hoid : o.id = oid := find?_order_id w1 oid o hfo
        subst hoid
        have hitp := List.find?_some hit
        have hitid : it.id = iid := by
          simp only [Bool.and_eq_true, beq_iff_eq] at hitp
          exact hitp.1
        have hitoid : it.orderId = o.id := by
          simp only [Bool.and_eq_true, beq_iff_eq] at hitp
          exact hitp.2
        have hitmem : it ∈ w1.items := List.mem_of_find?_eq_some hit
        cases hp : w1.findProduct it.productId with
        | none =>
          have hcsE : calculateSubtotal (w1.saveItem { it with quantity := nq }) iid
              = .error .notFound := by
            unfold calculateSubtotal
            rw [items_saveItem]
            rw [find?_saveItem_self w1.items iid { it with quantity := nq }
              (by exact hitid) ⟨it, hitmem, hitid⟩]
            dsimp only
            have hfpE : (w1.saveItem { it with quantity := nq }).findProduct it.productId
                = w1.findProduct it.productId := by
              unfold World.findProduct
              rw [products_saveItem]
            rw [hfpE, hp]
          rw [hcsE] at hex
          cases hex
        | some p =>
          have hcs : calculateSubtotal (w1.saveItem { it with quantity := nq }) iid
              = .ok (w1.saveItem { it with quantity := nq, extrasPrice := p.get_extras_price it.extras, subtotal := (it.unitPrice + p.get_extras_price it.extras) * nq }) := by
            unfold calculateSubtotal
            rw [items_saveItem]
            rw [find?_saveItem_self w1.items iid { it with quantity := nq }
              (by exact hitid) ⟨it, hitmem, hitid⟩]
            dsimp only
            have hfp1 : (w1.saveItem { it with quantity := nq }).findProduct it.productId
                = w1.findProduct it.productId := by
              unfold World.findProduct
              rw [products_saveItem]
            rw [hfp1, hp]
            dsimp only
            rw [saveItem_saveItem w1 { it with quantity := nq } { it with quantity := nq, extrasPrice := p.get_extras_price it.extras, subtotal := (it.unitPrice + p.get_extras_price it.extras) * nq } rfl]
          rw [hcs] at hex
          dsimp only at hex
          injection hex with hpair
          rw [Prod.mk.injEq] at hpair
          obtain ⟨hP, hW⟩ := hpair
          have hfoS : (w1.saveItem { it with quantity := nq, extrasPrice := p.get_extras_price it.extras, subtotal := (it.unitPrice + p.get_extras_price it.extras) * nq }).findOrder o.id = some o := hfo
          have hctS : calculateTotal (w1.saveItem { it with quantity := nq, extrasPrice := p.get_extras_price it.extras, subtotal := (it.unitPrice + p.get_extras_price it.extras) * nq }) o.id = (w1.saveItem { it with quantity := nq, extrasPrice := p.get_extras_price it.extras, subtotal := (it.unitPrice + p.get_extras_price it.extras) * nq }).saveOrder { o with totalPrice := sumSubtotals (w1.saveItem { it with quantity := nq, extrasPrice := p.get_extras_price it.extras, subtotal := (it.unitPrice + p.get_extras_price it.extras) * nq }) o.id } := by
            unfold calculateTotal
            rw [hfoS]
          have hw2o : w2.findOrder o.id = some { o with totalPrice := sumSubtotals (w1.saveItem { it with quantity := nq, extrasPrice := p.get_extras_price it.extras, subtotal := (it.unitPrice + p.get_extras_price it.extras) * nq }) o.id } := by
            rw [← hW, hctS]
            unfold World.findOrder
            rw [logHistory_orders, now_snd_orders]
            have h8 := findOrder_saveOrder (w1.saveItem { it with quantity := nq, extrasPrice := p.get_extras_price it.extras, subtotal := (it.unitPrice + p.get_extras_price it.extras) * nq }) o.id o { o with totalPrice := sumSubtotals (w1.saveItem { it with quantity := nq, extrasPrice := p.get_extras_price it.extras, subtotal := (it.unitPrice + p.get_extras_price it.extras) * nq }) o.id } hfoS rfl
            unfold World.findOrder at h8
            exact h8
          have hw2items : w2.items = (w1.saveItem { it with quantity := nq, extrasPrice := p.get_extras_price it.extras, subtotal := (it.unitPrice + p.get_extras_price it.extras) * nq }).items := by
            rw [← hW, hctS]
            rfl
          have hw2p : w2.products = w1.products := by
            rw [← hW, hctS]
            rfl
          have hfindW2 : w2.items.find? (fun x => x.id == iid)
              = some { it with quantity := nq, extrasPrice := p.get_extras_price it.extras, subtotal := (it.unitPrice + p.get_extras_price it.extras) * nq } := by
            rw [hw2items, items_saveItem]
            exact find?_saveItem_self w1.items iid { it with quantity := nq, extrasPrice := p.get_extras_price it.extras, subtotal := (it.unitPrice + p.get_extras_price it.extras) * nq }
              (by exact hitid) ⟨it, hitmem, hitid⟩
          have hcu : c2e.can_undo = true := by
            rw [← hP]
            rfl
          have hcs2 : calculateSubtotal (w2.saveItem { it with extrasPrice := p.get_extras_price it.extras, subtotal := (it.unitPrice + p.get_extras_price it.extras) * nq }) iid
              = .ok (w2.saveItem { it with extrasPrice := p.get_extras_price it.extras, subtotal := (it.unitPrice + p.get_extras_price it.extras) * it.quantity }) := by
            unfold calculateSubtotal
            rw [items_saveItem]
            rw [find?_saveItem_self w2.items iid { it with extrasPrice := p.get_extras_price it.extras, subtotal := (it.unitPrice + p.get_extras_price it.extras) * nq }
              (by exact hitid)
              ⟨{ it with quantity := nq, extrasPrice := p.get_extras_price it.extras, subtotal := (it.unitPrice + p.get_extras_price it.extras) * nq }, List.mem_of_find?_eq_some hfindW2, by exact hitid⟩]
            dsimp only
            have hfp2 : (w2.saveItem { it with extrasPrice := p.get_extras_price it.extras, subtotal := (it.unitPrice + p.get_extras_price it.extras) * nq }).findProduct it.productId
                = w1.findProduct it.productId := by
              unfold World.findProduct
              rw [products_saveItem, hw2p]
            rw [hfp2, hp]
            dsimp only
            rw [saveItem_saveItem w2 { it with extrasPrice := p.get_extras_price it.extras, subtotal := (it.unitPrice + p.get_extras_price it.extras) * nq } { it with extrasPrice := p.get_extras_price it.extras, subtotal := (it.unitPrice + p.get_extras_price it.extras) * it.quantity } rfl]
          have hfoU : (w2.saveItem { it with extrasPrice := p.get_extras_price it.extras, subtotal := (it.unitPrice + p.get_extras_price it.extras) * it.quantity }).findOrder o.id = some { o with totalPrice := sumSubtotals (w1.saveItem { it with quantity := nq, extrasPrice := p.get_extras_price it.extras, subtotal := (it.unitPrice + p.get_extras_price it.extras) * nq }) o.id } := hw2o
          have hctU : calculateTotal (w2.saveItem { it with extrasPrice := p.get_extras_price it.extras, subtotal := (it.unitPrice + p.get_extras_price it.extras) * it.quantity }) o.id
              = (w2.saveItem { it with extrasPrice := p.get_extras_price it.extras, subtotal := (it.unitPrice + p.get_extras_price it.extras) * it.quantity }).saveOrder { o with totalPrice := sumSubtotals (w2.saveItem { it with extrasPrice := p.get_extras_price it.extras, subtotal := (it.unitPrice + p.get_extras_price it.extras) * it.quantity }) o.id } := by
            unfold calculateTotal
            rw [hfoU]
          have hund : c2e.undo w2
              = .ok ({ c2e with undoneAt := some (((w2.saveItem { it with extrasPrice := p.get_extras_price it.extras, subtotal := (it.unitPrice + p.get_extras_price it.extras) * it.quantity }).saveOrder { o with totalPrice := sumSubtotals (w2.saveItem { it with extrasPrice := p.get_extras_price it.extras, subtotal := (it.unitPrice + p.get_extras_price it.extras) * it.quantity }) o.id }).now.1) }, (((w2.saveItem { it with extrasPrice := p.get_extras_price it.extras, subtotal := (it.unitPrice + p.get_extras_price it.extras) * it.quantity }).saveOrder { o with totalPrice := sumSubtotals (w2.saveItem { it with extrasPrice := p.get_extras_price it.extras, subtotal := (it.unitPrice + p.get_extras_price it.extras) * it.quantity }) o.id }).now.2)) := by
            rw [← hP]
            unfold Cmd.undo
            dsimp only
            rw [hfindW2]
            dsimp only
            rw [hcs2]
            dsimp only
            rw [hctU]
            rfl
          have hfoW3 : (((w2.saveItem { it with extrasPrice := p.get_extras_price it.extras, subtotal := (it.unitPrice + p.get_extras_price it.extras) * it.quantity }).saveOrder { o with totalPrice := sumSubtotals (w2.saveItem { it with extrasPrice := p.get_extras_price it.extras, subtotal := (it.unitPrice + p.get_extras_price it.extras) * it.quantity }) o.id }).now.2).findOrder o.id = some { o with totalPrice := sumSubtotals (w2.saveItem { it with extrasPrice := p.get_extras_price it.extras, subtotal := (it.unitPrice + p.get_extras_price it.extras) * it.quantity }) o.id } := by
            unfold World.findOrder
            rw [now_snd_orders]
            have h9 := findOrder_saveOrder (w2.saveItem { it with extrasPrice := p.get_extras_price it.extras, subtotal := (it.unitPrice + p.get_extras_price it.extras) * it.quantity }) o.id
              { o with totalPrice := sumSubtotals (w1.saveItem { it with quantity := nq, extrasPrice := p.get_extras_price it.extras, subtotal := (it.unitPrice + p.get_extras_price it.extras) * nq }) o.id } { o with totalPrice := sumSubtotals (w2.saveItem { it with extrasPrice := p.get_extras_price it.extras, subtotal := (it.unitPrice + p.get_extras_price it.extras) * it.quantity }) o.id } hfoU rfl
            unfold World.findOrder at h9
            exact h9
          have hfind3 : (((w2.saveItem { it with extrasPrice := p.get_extras_price it.extras, subtotal := (it.unitPrice + p.get_extras_price it.extras) * it.quantity }).saveOrder { o with totalPrice := sumSubtotals (w2.saveItem { it with extrasPrice := p.get_extras_price it.extras, subtotal := (it.unitPrice + p.get_extras_price it.extras) * it.quantity }) o.id }).now.2).items.find?
              (fun x => x.id == iid && x.orderId == o.id) = some { it with extrasPrice := p.get_extras_price it.extras, subtotal := (it.unitPrice + p.get_extras_price it.extras) * it.quantity } := by
            rw [show (((w2.saveItem { it with extrasPrice := p.get_extras_price it.extras, subtotal := (it.unitPrice + p.get_extras_price it.extras) * it.quantity }).saveOrder { o with totalPrice := sumSubtotals (w2.saveItem { it with extrasPrice := p.get_extras_price it.extras, subtotal := (it.unitPrice + p.get_extras_price it.extras) * it.quantity }) o.id }).now.2).items
                = w2.items.map
                  (fun x => if x.id = ({ it with extrasPrice := p.get_extras_price it.extras, subtotal := (it.unitPrice + p.get_extras_price it.extras) * it.quantity } : OrderItem).id
                    then { it with extrasPrice := p.get_extras_price it.extras, subtotal := (it.unitPrice + p.get_extras_price it.extras) * it.quantity } else x) from rfl]
            exact find?_saveItem_conj w2.items iid o.id { it with extrasPrice := p.get_extras_price it.extras, subtotal := (it.unitPrice + p.get_extras_price it.extras) * it.quantity }
              (by exact hitid) (by exact hitoid)
              ⟨{ it with quantity := nq, extrasPrice := p.get_extras_price it.extras, subtotal := (it.unitPrice + p.get_extras_price it.extras) * nq }, List.mem_of_find?_eq_some hfindW2, by exact hitid⟩
          have hcs3 : calculateSubtotal ((((w2.saveItem { it with extrasPrice := p.get_extras_price it.extras, subtotal := (it.unitPrice + p.get_extras_price it.extras) * it.quantity }).saveOrder { o with totalPrice := sumSubtotals (w2.saveItem { it with extrasPrice := p.get_extras_price it.extras, subtotal := (it.unitPrice + p.get_extras_price it.extras) * it.quantity }) o.id }).now.2).saveItem { it with quantity := nq, extrasPrice := p.get_extras_price it.extras, subtotal := (it.unitPrice + p.get_extras_price it.extras) * it.quantity }) iid
              = .ok ((((w2.saveItem { it with extrasPrice := p.get_extras_price it.extras, subtotal := (it.unitPrice + p.get_extras_price it.extras) * it.quantity }).saveOrder { o with totalPrice := sumSubtotals (w2.saveItem { it with extrasPrice := p.get_extras_price it.extras, subtotal := (it.unitPrice + p.get_extras_price it.extras) * it.quantity }) o.id }).now.2).saveItem { it with quantity := nq, extrasPrice := p.get_extras_price it.extras, subtotal := (it.unitPrice + p.get_extras_price it.extras) * nq }) := by
            unfold calculateSubtotal
            rw [items_saveItem]
            rw [find?_saveItem_self (((w2.saveItem { it with extrasPrice := p.get_extras_price it.extras, subtotal := (it.unitPrice + p.get_extras_price it.extras) * it.quantity }).saveOrder { o with totalPrice := sumSubtotals (w2.saveItem { it with extrasPrice := p.get_extras_price it.extras, subtotal := (it.unitPrice + p.get_extras_price it.extras) * it.quantity }) o.id }).now.2).items iid { it with quantity := nq, extrasPrice := p.get_extras_price it.extras, subtotal := (it.unitPrice + p.get_extras_price it.extras) * it.quantity }
              (by exact hitid)
              ⟨{ it with extrasPrice := p.get_extras_price it.extras, subtotal := (it.unitPrice + p.get_extras_price it.extras) * it.quantity }, List.mem_of_find?_eq_some hfind3, by exact hitid⟩]
            dsimp only
            have hfp3 : ((((w2.saveItem { it with extrasPrice := p.get_extras_price it.extras, subtotal := (it.unitPrice + p.get_extras_price it.extras) * it.quantity }).saveOrder { o with totalPrice := sumSubtotals (w2.saveItem { it with extrasPrice := p.get_extras_price it.extras, subtotal := (it.unitPrice + p.get_extras_price it.extras) * it.quantity }) o.id }).now.2).saveItem { it with quantity := nq, extrasPrice := p.get_extras_price it.extras, subtotal := (it.unitPrice + p.get_extras_price it.extras) * it.quantity }).findProduct it.productId
                = w1.findProduct it.productId := by
              unfold World.findProduct
              rw [products_saveItem]
              rw [show (((w2.saveItem { it with extrasPrice := p.get_extras_price it.extras, subtotal := (it.unitPrice + p.get_extras_price it.extras) * it.quantity }).saveOrder { o with totalPrice := sumSubtotals (w2.saveItem { it with extrasPrice := p.get_extras_price it.extras, subtotal := (it.unitPrice + p.get_extras_price it.extras) * it.quantity }) o.id }).now.2).products = w2.products from rfl]
              rw [hw2p]
            rw [hfp3, hp]
            dsimp only
            rw [saveItem_saveItem (((w2.saveItem { it with extrasPrice := p.get_extras_price it.extras, subtotal := (it.unitPrice + p.get_extras_price it.extras) * it.quantity }).saveOrder { o with totalPrice := sumSubtotals (w2.saveItem { it with extrasPrice := p.get_extras_price it.extras, subtotal := (it.unitPrice + p.get_extras_price it.extras) * it.quantity }) o.id }).now.2) { it with quantity := nq, extrasPrice := p.get_extras_price it.extras, subtotal := (it.unitPrice + p.get_extras_price it.extras) * it.quantity } { it with quantity := nq, extrasPrice := p.get_extras_price it.extras, subtotal := (it.unitPrice + p.get_extras_price it.extras) * nq } rfl]
          have hfoR : ((((w2.saveItem { it with extrasPrice := p.get_extras_price it.extras, subtotal := (it.unitPrice + p.get_extras_price it.extras) * it.quantity }).saveOrder { o with totalPrice := sumSubtotals (w2.saveItem { it with extrasPrice := p.get_extras_price it.extras, subtotal := (it.unitPrice + p.get_extras_price it.extras) * it.quantity }) o.id }).now.2).saveItem { it with quantity := nq, extrasPrice := p.get_extras_price it.extras, subtotal := (it.unitPrice + p.get_extras_price it.extras) * nq }).findOrder o.id = some { o with totalPrice := sumSubtotals (w2.saveItem { it with extrasPrice := p.get_extras_price it.extras, subtotal := (it.unitPrice + p.get_extras_price it.extras) * it.quantity }) o.id } := hfoW3
          have hctR : calculateTotal ((((w2.saveItem { it with extrasPrice := p.get_extras_price it.extras, subtotal := (it.unitPrice + p.get_extras_price it.extras) * it.quantity }).saveOrder { o with totalPrice := sumSubtotals (w2.saveItem { it with extrasPrice := p.get_extras_price it.extras, subtotal := (it.unitPrice + p.get_extras_price it.extras) * it.quantity }) o.id }).now.2).saveItem { it with quantity := nq, extrasPrice := p.get_extras_price it.extras, subtotal := (it.unitPrice + p.get_extras_price it.extras) * nq }) o.id = ((((w2.saveItem { it with extrasPrice := p.get_extras_price it.extras, subtotal := (it.unitPrice + p.get_extras_price it.extras) * it.quantity }).saveOrder { o with totalPrice := sumSubtotals (w2.saveItem { it with extrasPrice := p.get_extras_price it.extras, subtotal := (it.unitPrice + p.get_extras_price it.extras) * it.quantity }) o.id }).now.2).saveItem { it with quantity := nq, extrasPrice := p.get_extras_price it.extras, subtotal := (it.unitPrice + p.get_extras_price it.extras) * nq }).saveOrder { o with totalPrice := sumSubtotals ((((w2.saveItem { it with extrasPrice := p.get_extras_price it.extras, subtotal := (it.unitPrice + p.get_extras_price it.extras) * it.quantity }).saveOrder { o with totalPrice := sumSubtotals (w2.saveItem { it with extrasPrice := p.get_extras_price it.extras, subtotal := (it.unitPrice + p.get_extras_price it.extras) * it.quantity }) o.id }).now.2).saveItem { it with quantity := nq, extrasPrice := p.get_extras_price it.extras, subtotal := (it.unitPrice + p.get_extras_price it.extras) * nq }) o.id } := by
            unfold calculateTotal
            rw [hfoR]
          have hred : Cmd.execute { c2e with undoneAt := some (((w2.saveItem { it with extrasPrice := p.get_extras_price it.extras, subtotal := (it.unitPrice + p.get_extras_price it.extras) * it.quantity }).saveOrder { o with totalPrice := sumSubtotals (w2.saveItem { it with extrasPrice := p.get_extras_price it.extras, subtotal := (it.unitPrice + p.get_extras_price it.extras) * it.quantity }) o.id }).now.1) } (((w2.saveItem { it with extrasPrice := p.get_extras_price it.extras, subtotal := (it.unitPrice + p.get_extras_price it.extras) * it.quantity }).saveOrder { o with totalPrice := sumSubtotals (w2.saveItem { it with extrasPrice := p.get_extras_price it.extras, subtotal := (it.unitPrice + p.get_extras_price it.extras) * it.quantity }) o.id }).now.2)
              = .ok ({ c2e with undoneAt := some (((w2.saveItem { it with extrasPrice := p.get_extras_price it.extras, subtotal := (it.unitPrice + p.get_extras_price it.extras) * it.quantity }).saveOrder { o with totalPrice := sumSubtotals (w2.saveItem { it with extrasPrice := p.get_extras_price it.extras, subtotal := (it.unitPrice + p.get_extras_price it.extras) * it.quantity }) o.id }).now.1), executedAt := some ((((((w2.saveItem { it with extrasPrice := p.get_extras_price it.extras, subtotal := (it.unitPrice + p.get_extras_price it.extras) * it.quantity }).saveOrder { o with totalPrice := sumSubtotals (w2.saveItem { it with extrasPrice := p.get_extras_price it.extras, subtotal := (it.unitPrice + p.get_extras_price it.extras) * it.quantity }) o.id }).now.2).saveItem { it with quantity := nq, extrasPrice := p.get_extras_price it.extras, subtotal := (it.unitPrice + p.get_extras_price it.extras) * nq }).saveOrder { o with totalPrice := sumSubtotals ((((w2.saveItem { it with extrasPrice := p.get_extras_price it.extras, subtotal := (it.unitPrice + p.get_extras_price it.extras) * it.quantity }).saveOrder { o with totalPrice := sumSubtotals (w2.saveItem { it with extrasPrice := p.get_extras_price it.extras, subtotal := (it.unitPrice + p.get_extras_price it.extras) * it.quantity }) o.id }).now.2).saveItem { it with quantity := nq, extrasPrice := p.get_extras_price it.extras, subtotal := (it.unitPrice + p.get_extras_price it.extras) * nq }) o.id }).now.1), memItemId := some iid, memPrevQty := some it.quantity }, ((((((w2.saveItem { it with extrasPrice := p.get_extras_price it.extras, subtotal := (it.unitPrice + p.get_extras_price it.extras) * it.quantity }).saveOrder { o with totalPrice := sumSubtotals (w2.saveItem { it with extrasPrice := p.get_extras_price it.extras, subtotal := (it.unitPrice + p.get_extras_price it.extras) * it.quantity }) o.id }).now.2).saveItem { it with quantity := nq, extrasPrice := p.get_extras_price it.extras, subtotal := (it.unitPrice + p.get_extras_price it.extras) * nq }).saveOrder { o with totalPrice := sumSubtotals ((((w2.saveItem { it with extrasPrice := p.get_extras_price it.extras, subtotal := (it.unitPrice + p.get_extras_price it.extras) * it.quantity }).saveOrder { o with totalPrice := sumSubtotals (w2.saveItem { it with extrasPrice := p.get_extras_price it.extras, subtotal := (it.unitPrice + p.get_extras_price it.extras) * it.quantity }) o.id }).now.2).saveItem { it with quantity := nq, extrasPrice := p.get_extras_price it.extras, subtotal := (it.unitPrice + p.get_extras_price it.extras) * nq }) o.id }).now.2.logHistory { orderId := o.id, action := "UPDATE_QUANTITY", previousStatus := "", newStatus := "", reason := "Cantidad actualizada: " ++ toString it.quantity ++ " -> " ++ toString nq })) := by
            rw [← hP]
            unfold Cmd.execute
            dsimp only [Option.bind]
            rw [hfoW3]
            dsimp only
            rw [hst]
            simp only [Bool.false_eq_true, if_false]
            rw [hfind3]
            dsimp only
            rw [hcs3]
            dsimp only
            rw [hctR]
          have hfin : ((((w2.saveItem { it with extrasPrice := p.get_extras_price it.extras, subtotal := (it.unitPrice + p.get_extras_price it.extras) * it.quantity }).saveOrder { o with totalPrice := sumSubtotals (w2.saveItem { it with extrasPrice := p.get_extras_price it.extras, subtotal := (it.unitPrice + p.get_extras_price it.extras) * it.quantity }) o.id }).now.2).saveItem { it with quantity := nq, extrasPrice := p.get_extras_price it.extras, subtotal := (it.unitPrice + p.get_extras_price it.extras) * nq }).items = (w1.saveItem { it with quantity := nq, extrasPrice := p.get_extras_price it.extras, subtotal := (it.unitPrice + p.get_extras_price it.extras) * nq }).items := by
            rw [items_saveItem, items_saveItem]
            rw [show (((w2.saveItem { it with extrasPrice := p.get_extras_price it.extras, subtotal := (it.unitPrice + p.get_extras_price it.extras) * it.quantity }).saveOrder { o with totalPrice := sumSubtotals (w2.saveItem { it with extrasPrice := p.get_extras_price it.extras, subtotal := (it.unitPrice + p.get_extras_price it.extras) * it.quantity }) o.id }).now.2).items
                = w2.items.map
                  (fun x => if x.id = ({ it with extrasPrice := p.get_extras_price it.extras, subtotal := (it.unitPrice + p.get_extras_price it.extras) * it.quantity } : OrderItem).id
                    then { it with extrasPrice := p.get_extras_price it.extras, subtotal := (it.unitPrice + p.get_extras_price it.extras) * it.quantity } else x) from rfl]
            rw [hw2items]
            rw [items_saveItem]
            rw [List.map_map, List.map_map]
            apply List.map_congr_left
            intro x _
            by_cases hxa : x.id = it.id
            · simp [Function.comp, hxa]
            · simp [Function.comp, hxa]
          have hobs1 : obsOrder ((((((w2.saveItem { it with extrasPrice := p.get_extras_price it.extras, subtotal := (it.unitPrice + p.get_extras_price it.extras) * it.quantity }).saveOrder { o with totalPrice := sumSubtotals (w2.saveItem { it with extrasPrice := p.get_extras_price it.extras, subtotal := (it.unitPrice + p.get_extras_price it.extras) * it.quantity }) o.id }).now.2).saveItem { it with quantity := nq, extrasPrice := p.get_extras_price it.extras, subtotal := (it.unitPrice + p.get_extras_price it.extras) * nq }).saveOrder { o with totalPrice := sumSubtotals ((((w2.saveItem { it with extrasPrice := p.get_extras_price it.extras, subtotal := (it.unitPrice + p.get_extras_price it.extras) * it.quantity }).saveOrder { o with totalPrice := sumSubtotals (w2.saveItem { it with extrasPrice := p.get_extras_price it.extras, subtotal := (it.unitPrice + p.get_extras_price it.extras) * it.quantity }) o.id }).now.2).saveItem { it with quantity := nq, extrasPrice := p.get_extras_price it.extras, subtotal := (it.unitPrice + p.get_extras_price it.extras) * nq }) o.id }).now.2.logHistory { orderId := o.id, action := "UPDATE_QUANTITY", previousStatus := "", newStatus := "", reason := "Cantidad actualizada: " ++ toString it.quantity ++ " -> " ++ toString nq }) o.id = obsOrder w2 o.id := by
            unfold obsOrder World.findOrder
            rw [logHistory_orders, now_snd_orders]
            have h10 := findOrder_saveOrder ((((w2.saveItem { it with extrasPrice := p.get_extras_price it.extras, subtotal := (it.unitPrice + p.get_extras_price it.extras) * it.quantity }).saveOrder { o with totalPrice := sumSubtotals (w2.saveItem { it with extrasPrice := p.get_extras_price it.extras, subtotal := (it.unitPrice + p.get_extras_price it.extras) * it.quantity }) o.id }).now.2).saveItem { it with quantity := nq, extrasPrice := p.get_extras_price it.extras, subtotal := (it.unitPrice + p.get_extras_price it.extras) * nq }) o.id { o with totalPrice := sumSubtotals (w2.saveItem { it with extrasPrice := p.get_extras_price it.extras, subtotal := (it.unitPrice + p.get_extras_price it.extras) * it.quantity }) o.id } { o with totalPrice := sumSubtotals ((((w2.saveItem { it with extrasPrice := p.get_extras_price it.extras, subtotal := (it.unitPrice + p.get_extras_price it.extras) * it.quantity }).saveOrder { o with totalPrice := sumSubtotals (w2.saveItem { it with extrasPrice := p.get_extras_price it.extras, subtotal := (it.unitPrice + p.get_extras_price it.extras) * it.quantity }) o.id }).now.2).saveItem { it with quantity := nq, extrasPrice := p.get_extras_price it.extras, subtotal := (it.unitPrice + p.get_extras_price it.extras) * nq }) o.id } hfoR rfl
            unfold World.findOrder at h10
            rw [h10]
            have hw2of := hw2o
            unfold World.findOrder at hw2of
            rw [hw2of]
            rw [sumSubtotals_congr (w1.saveItem { it with quantity := nq, extrasPrice := p.get_extras_price it.extras, subtotal := (it.unitPrice + p.get_extras_price it.extras) * nq }) ((((w2.saveItem { it with extrasPrice := p.get_extras_price it.extras, subtotal := (it.unitPrice + p.get_extras_price it.extras) * it.quantity }).saveOrder { o with totalPrice := sumSubtotals (w2.saveItem { it with extrasPrice := p.get_extras_price it.extras, subtotal := (it.unitPrice + p.get_extras_price it.extras) * it.quantity }) o.id }).now.2).saveItem { it with quantity := nq, extrasPrice := p.get_extras_price it.extras, subtotal := (it.unitPrice + p.get_extras_price it.extras) * nq }) o.id hfin]
          have hobs2 : obsItems ((((((w2.saveItem { it with extrasPrice := p.get_extras_price it.extras, subtotal := (it.unitPrice + p.get_extras_price it.extras) * it.quantity }).saveOrder { o with totalPrice := sumSubtotals (w2.saveItem { it with extrasPrice := p.get_extras_price it.extras, subtotal := (it.unitPrice + p.get_extras_price it.extras) * it.quantity }) o.id }).now.2).saveItem { it with quantity := nq, extrasPrice := p.get_extras_price it.extras, subtotal := (it.unitPrice + p.get_extras_price it.extras) * nq }).saveOrder { o with totalPrice := sumSubtotals ((((w2.saveItem { it with extrasPrice := p.get_extras_price it.extras, subtotal := (it.unitPrice + p.get_extras_price it.extras) * it.quantity }).saveOrder { o with totalPrice := sumSubtotals (w2.saveItem { it with extrasPrice := p.get_extras_price it.extras, subtotal := (it.unitPrice + p.get_extras_price it.extras) * it.quantity }) o.id }).now.2).saveItem { it with quantity := nq, extrasPrice := p.get_extras_price it.extras, subtotal := (it.unitPrice + p.get_extras_price it.extras) * nq }) o.id }).now.2.logHistory { orderId := o.id, action := "UPDATE_QUANTITY", previousStatus := "", newStatus := "", reason := "Cantidad actualizada: " ++ toString it.quantity ++ " -> " ++ toString nq }) o.id = obsItems w2 o.id := by
            apply obsItems_congr
            rw [logHistory_items, now_snd_items, saveOrder_items]
            rw [hfin, ← hw2items]
          exact ⟨_, _, _, _, hcu, hund, hred, hobs1, hobs2⟩

/-- C7 counterexample: with C1 = add a Sandwich line and C2 = remove the
café line, execute(C1); execute(C2); undo(); redo() diverges from
execute(C1); execute(C2): the redo raises NotFound (the line recreated by
undo carries a fresh id, not the id stored in the command), so the removed
line stays restored and the order shows two lines instead of one. -/
theorem C7_remove_redo_diverges :
    c9s1.1 = none ∧ c7s2.1 = none
    ∧ c7s3.1 = none ∧ c7s3.2.1 = true
    ∧ c7s4.1 = some .notFound
    ∧ obsItems c7s4.2.2.2 1 ≠ obsItems c7s2.2.2 1
    ∧ (obsItems c7s4.2.2.2 1).length = 2
    ∧ (obsItems c7s2.2.2 1).length = 1 := by
  decide

/-- C7 (amended): the round trip does hold when the second command is an
UpdateItemQuantityCommand or a CancelOrderCommand: after two successful
executions on a fresh invoker, undo followed by redo succeeds and leaves
the order in the same observable state (status, timestamps, total, lines
up to identity) as the plain double execution. -/
theorem C7_undo_redo_round_trip (c1 c2 : Cmd) (w : World) (oid : Nat)
    (inv1 inv2 : CommandInvoker) (w1 w2 : World)
    (hk : (∃ iid nq, c2.kind = .updateQty iid nq) ∨ c2.kind = .cancelOrder)
    (hcid : c2.orderId = some oid)
    (hfr : c2.undoneAt = none)
    (h1 : CommandInvoker.execute_command {} c1 w = (none, inv1, w1))
    (h2 : CommandInvoker.execute_command inv1 c2 w1 = (none, inv2, w2)) :
    ∃ inv3 w3 inv4 w4,
      CommandInvoker.undoLast inv2 w2 = (none, true, inv3, w3)
      ∧ CommandInvoker.redoNext inv3 w3 = (none, true, inv4, w4)
      ∧ obsOrder w4 oid = obsOrder w2 oid
      ∧ obsItems w4 oid = obsItems w2 oid := by
  cases hce1 : c1.execute w with
  | error e =>
    rw [CommandInvoker.execute_command, hce1] at h1
    simp at h1
  | ok q =>
    obtain ⟨c1e, w1x⟩ := q
    have hstep1 : CommandInvoker.execute_command {} c1 w
        = (none, ⟨[c1e], 0, 50⟩, w1x) := by
      simp [CommandInvoker.execute_command, hce1]
    rw [hstep1] at h1
    simp only [Prod.mk.injEq, true_and] at h1
    obtain ⟨hi1, hw1⟩ := h1
    subst hi1
    subst hw1
    cases hce2 : c2.execute w1x with
    | error e =>
      rw [CommandInvoker.execute_command, hce2] at h2
      simp at h2
    | ok q2 =>
      obtain ⟨c2e, w2x⟩ := q2
      have hstep2 : CommandInvoker.execute_command ⟨[c1e], 0, 50⟩ c2 w1x
          = (none, ⟨[c1e, c2e], 1, 50⟩, w2x) := by
        simp [CommandInvoker.execute_command, hce2]
      rw [hstep2] at h2
      simp only [Prod.mk.injEq, true_and] at h2
      obtain ⟨hi2, hw2⟩ := h2
      subst hi2
      subst hw2
      have hrt : ∃ c2u w3 c2r w4,
          c2e.can_undo = true
          ∧ c2e.undo w2x = .ok (c2u, w3)
          ∧ c2u.execute w3 = .ok (c2r, w4)
          ∧ obsOrder w4 oid = obsOrder w2x oid
          ∧ obsItems w4 oid = obsItems w2x oid := by
        rcases hk with ⟨iid, nq, hkq⟩ | hkc
        · exact updateQty_roundtrip iid nq c2 w1x c2e w2x oid hkq hcid hfr
            hce2
        · exact cancel_roundtrip c2 w1x c2e w2x oid hkc hcid hfr hce2
      obtain ⟨c2u, w3, c2r, w4, hcu, hu, hr, ho1, ho2⟩ := hrt
      have hundo : CommandInvoker.undoLast ⟨[c1e, c2e], 1, 50⟩ w2x
          = (none, true, ⟨[c1e, c2u], 0, 50⟩, w3) := by
        simp [CommandInvoker.undoLast, hcu, hu]
      have hredo : CommandInvoker.redoNext ⟨[c1e, c2u], 0, 50⟩ w3
          = (none, true, ⟨[c1e, c2r], 1, 50⟩, w4) := by
        simp [CommandInvoker.redoNext, hr]
      exact ⟨_, _, _, _, hundo, hredo, ho1, ho2⟩

/-- Witness for C7 (amended): add a Sandwich line, cancel the order, undo,
redo; the round trip reproduces the observable state of the double
execution. -/
theorem C7_undo_redo_round_trip_witness :
    ∃ inv3 w3 inv4 w4,
      CommandInvoker.undoLast c7ci.2.1 c7ci.2.2 = (none, true, inv3, w3)
      ∧ CommandInvoker.redoNext inv3 w3 = (none, true, inv4, w4)
      ∧ obsOrder w4 1 = obsOrder c7ci.2.2 1
      ∧ obsItems w4 1 = obsItems c7ci.2.2 1 :=
  C7_undo_redo_round_trip c6cmd c7cancel W1 1 c9s1.2.1 c7ci.2.1
    c9s1.2.2 c7ci.2.2 (Or.inr rfl) rfl rfl (by rfl) (by rfl)

end Cafeteria
